/-
Verification of the grade/enrollment computation core of the sga-backend
academic records service.

The Python source is shallowly embedded: decimal scores, weights and grades
become rationals; database tables become lists of records inside a `DB`
structure; each route handler becomes a pure function from the pre-state and
the parsed request to either an error or the post-state.  Python's
`round(x, 2)` (round half to even) is embedded as `pyRound2`.  JSON objects
with optional keys become structures of `Option` fields: `none` models an
absent key, and a doubly wrapped `Option (Option _)` distinguishes an absent
key from a key bound to `null`.

One behaviour of the persistence layer is modelled explicitly because the
batch grade endpoint depends on it: within one session (one request), the
`enrollment.grades` relationship is loaded lazily on first access and cached;
a new `Grade` row added afterwards with `session.add` is not visible in the
already-cached collection until the session commits.  The batch operation
therefore carries, besides the store, the per-enrollment list of cached row
ids (`BatchState.loaded_grades`).  The single create/update/delete handlers
commit before recomputing the final grade, so the recomputation there always
sees the current rows and no cache is needed.
-/
import Mathlib

/-- Floor of a rational number, written with integer division so that it
mirrors the numeric primitive the interpreter uses. -/
def ratFloor (x : ℚ) : ℤ := x.num / x.den

theorem ratFloor_eq_floor (x : ℚ) : ratFloor x = ⌊x⌋ := by
  rw [Rat.floor_def, ratFloor]

/-- Python's `round` to an integer: round half to even (banker's rounding). -/
def pyRoundInt (x : ℚ) : ℤ :=
  if x - ⌊x⌋ < 1/2 then ⌊x⌋
  else if 1/2 < x - ⌊x⌋ then ⌊x⌋ + 1
  else if 2 ∣ ⌊x⌋ then ⌊x⌋ else ⌊x⌋ + 1

/-- Python's `round(x, 2)`: round to two fractional digits, half to even. -/
def pyRound2 (x : ℚ) : ℚ := (pyRoundInt (x * 100) : ℚ) / 100

theorem le_pyRoundInt (a : ℤ) (x : ℚ) (h : (a : ℚ) ≤ x) : a ≤ pyRoundInt x := by
  have hf : a ≤ ⌊x⌋ := Int.le_floor.mpr h
  unfold pyRoundInt
  split_ifs <;> omega

theorem pyRoundInt_le (b : ℤ) (x : ℚ) (h : x ≤ (b : ℚ)) : pyRoundInt x ≤ b := by
  have hfb : ⌊x⌋ ≤ b := by
    have := Int.floor_le_floor h
    simpa using this
  have hfx : (⌊x⌋ : ℚ) ≤ x := Int.floor_le x
  unfold pyRoundInt
  split_ifs with h1 h2 h3
  · exact hfb
  · have hlt : (⌊x⌋ : ℚ) < (b : ℚ) := by linarith
    have : ⌊x⌋ < b := by exact_mod_cast hlt
    omega
  · exact hfb
  · have heq : x - ⌊x⌋ = 1/2 := le_antisymm (not_lt.mp h2) (not_lt.mp h1)
    have hlt : (⌊x⌋ : ℚ) < (b : ℚ) := by linarith
    have : ⌊x⌋ < b := by exact_mod_cast hlt
    omega

theorem pyRound2_nonneg (x : ℚ) (h : 0 ≤ x) : 0 ≤ pyRound2 x := by
  have h0 : (0 : ℤ) ≤ pyRoundInt (x * 100) := by
    apply le_pyRoundInt
    push_cast
    linarith
  unfold pyRound2
  have : (0 : ℚ) ≤ (pyRoundInt (x * 100) : ℚ) := by exact_mod_cast h0
  linarith

theorem pyRound2_le_hundred (x : ℚ) (h : x ≤ 100) : pyRound2 x ≤ 100 := by
  have h0 : pyRoundInt (x * 100) ≤ (10000 : ℤ) := by
    apply pyRoundInt_le
    push_cast
    linarith
  unfold pyRound2
  have : (pyRoundInt (x * 100) : ℚ) ≤ (10000 : ℚ) := by exact_mod_cast h0
  linarith

namespace SGA

/-! ## Data model (src/src/models) -/

/-- Status column of `enrollments` (src/src/models/enrollment.py). -/
inductive EnrollmentStatus where
  | enrolled | dropped | completed | failed
  deriving DecidableEq, Repr

/-- Status column of `attendance` records (src/src/models/attendance.py). -/
inductive AttendanceStatus where
  | present | absent | late | justified
  deriving DecidableEq, Repr

/-- Role of the authenticated user (src/src/utils/decorators.py). -/
inductive Role where
  | admin | coordinator | teacher | student
  deriving DecidableEq, Repr

/-- The authenticated user, as consumed by the handlers. -/
structure User where
  id : Nat
  role : Role
  deriving DecidableEq, Repr

/-- Row of `subjects`; only the column the claims use (src/src/models/subject.py). -/
structure Subject where
  id : Nat
  credits : Nat
  deriving DecidableEq, Repr

/-- Row of `class_groups` (src/src/models/class_group.py). -/
structure ClassGroup where
  id : Nat
  subject_id : Nat
  teacher_id : Nat
  max_students : Int
  deriving DecidableEq, Repr

/-- Row of `teachers` (src/src/models/teacher.py): id plus the wrapped user. -/
structure TeacherRow where
  id : Nat
  user_id : Nat
  deriving DecidableEq, Repr

/-- Row of `students` (src/src/models/student.py). -/
structure StudentRow where
  id : Nat
  user_id : Nat
  deriving DecidableEq, Repr

/-- Row of `enrollments` (src/src/models/enrollment.py). -/
structure Enrollment where
  id : Nat
  student_id : Nat
  class_group_id : Nat
  status : EnrollmentStatus
  final_grade : Option ℚ
  deriving DecidableEq, Repr

/-- Row of `evaluations` (src/src/models/evaluation.py). -/
structure Evaluation where
  id : Nat
  class_group_id : Nat
  weight : ℚ
  max_score : ℚ
  deriving DecidableEq, Repr

/-- Row of `grades` (src/src/models/grade.py); `score` is nullable. -/
structure Grade where
  id : Nat
  enrollment_id : Nat
  evaluation_id : Nat
  score : Option ℚ
  comments : Option String
  graded_by : Option Nat
  deriving DecidableEq, Repr

/-- One attendance record of an enrollment (src/src/models/attendance.py);
only the status column enters the attendance percentage. -/
structure Attendance where
  status : AttendanceStatus
  deriving DecidableEq, Repr

/-- The record store: one list per table, plus the autoincrement counters. -/
structure DB where
  subjects : List Subject
  class_groups : List ClassGroup
  teachers : List TeacherRow
  students : List StudentRow
  enrollments : List Enrollment
  evaluations : List Evaluation
  grades : List Grade
  next_grade_id : Nat
  next_enrollment_id : Nat
  deriving DecidableEq, Repr

def find_subject (db : DB) (i : Nat) : Option Subject :=
  db.subjects.find? (fun s => s.id = i)

def find_class_group (db : DB) (i : Nat) : Option ClassGroup :=
  db.class_groups.find? (fun c => c.id = i)

def find_student (db : DB) (i : Nat) : Option StudentRow :=
  db.students.find? (fun s => s.id = i)

def find_enrollment (db : DB) (i : Nat) : Option Enrollment :=
  db.enrollments.find? (fun e => e.id = i)

def find_evaluation (db : DB) (i : Nat) : Option Evaluation :=
  db.evaluations.find? (fun v => v.id = i)

def find_grade (db : DB) (i : Nat) : Option Grade :=
  db.grades.find? (fun g => g.id = i)

/-- `Grade.query.filter_by(enrollment_id=..., evaluation_id=...).first()`. -/
def find_grade_by_pair (db : DB) (eid vid : Nat) : Option Grade :=
  db.grades.find? (fun g => g.enrollment_id = eid ∧ g.evaluation_id = vid)

/-- `Teacher.query.filter_by(user_id=current_user.id).first()`. -/
def teacher_for_user (db : DB) (uid : Nat) : Option TeacherRow :=
  db.teachers.find? (fun t => t.user_id = uid)

/-- The `enrollment.grades` relationship: the Grade rows of an enrollment. -/
def grades_of (db : DB) (eid : Nat) : List Grade :=
  db.grades.filter (fun g => g.enrollment_id = eid)

/-- `ClassGroup.enrolled_students_count` (src/src/models/class_group.py:30):
the enrollments of the class whose status is `enrolled`. -/
def enrolled_students_count (db : DB) (cgid : Nat) : Nat :=
  (db.enrollments.filter
    (fun e => e.class_group_id = cgid ∧ e.status = .enrolled)).length

/-! ## Grade Aggregator (Enrollment.calculate_final_grade, enrollment.py:35) -/

/-- Body of `Enrollment.calculate_final_grade` run over an explicitly given
list of Grade rows: the loaded `self.grades` collection.  For every grade with
a non-null score and a resolvable evaluation it accumulates `score * weight`
and `weight`; returns the rounded quotient when the accumulated weight is
positive, `None` otherwise (also when the row list itself is empty). -/
def calculate_final_grade_on (db : DB) (gs : List Grade) : Option ℚ :=
  if gs.isEmpty then none
  else
    let acc := gs.foldl (fun (acc : ℚ × ℚ) g =>
      match g.score, find_evaluation db g.evaluation_id with
      | some s, some ev => (acc.1 + s * ev.weight, acc.2 + ev.weight)
      | _, _ => acc) (0, 0)
    if 0 < acc.2 then some (pyRound2 (acc.1 / acc.2)) else none

/-- `Enrollment.calculate_final_grade` against the current Grade rows. -/
def calculate_final_grade (db : DB) (eid : Nat) : Option ℚ :=
  calculate_final_grade_on db (grades_of db eid)

/-- Store a recomputed final grade on the enrollment row. -/
def set_final_grade (db : DB) (eid : Nat) (v : Option ℚ) : DB :=
  let es := db.enrollments.map
    (fun e => if e.id = eid then { e with final_grade := v } else e)
  { db with enrollments := es }

/-- `enrollment.final_grade = enrollment.calculate_final_grade()` executed
after a commit, so the recomputation sees the current Grade rows. -/
def recompute_final_grade (db : DB) (eid : Nat) : DB :=
  set_final_grade db eid (calculate_final_grade db eid)

/-! ## Attendance Calculator (Enrollment.attendance_percentage, enrollment.py:24) -/

/-- `Enrollment.attendance_percentage`: 0 on an empty record list, otherwise
`round(present_or_late / total * 100, 2)` where `late` counts as attended
and `justified` does not. -/
def attendance_percentage (records : List Attendance) : ℚ :=
  if records.isEmpty then 0
  else
    let total_classes := records.length
    let present_classes :=
      (records.filter (fun a => a.status = .present ∨ a.status = .late)).length
    if 0 < total_classes
    then pyRound2 (((present_classes : ℚ) / (total_classes : ℚ)) * 100)
    else 0

/-! ## Error vocabulary of the route handlers (section 7 of the spec) -/

/-- Structured errors returned by the handlers.  `internal_error` stands for
the catch-all `except` branch returning HTTP 500 (reachable only on broken
foreign keys); `key_error` is a Python `KeyError` caught by the per-item
`except` of the batch loop. -/
inductive ApiError where
  | field_required (field : String)
  | not_found (entity : String)
  | permission_denied
  | score_out_of_range
  | class_full
  | already_enrolled
  | key_error (field : String)
  | grades_array_required
  | internal_error
  deriving DecidableEq, Repr

/-- Parsed JSON body of POST /grades and of one batch item.  `score`'s outer
`Option` is key presence, the inner one nullability. -/
structure GradeInput where
  enrollment_id : Option Nat
  evaluation_id : Option Nat
  score : Option (Option ℚ)
  comments : Option String
  deriving DecidableEq, Repr

/-- `teacher.id if teacher else None` for the currently authenticated user,
evaluated only when the role is teacher (grades.py:154). -/
def grader_id (db : DB) (user : User) : Option Nat :=
  if user.role = .teacher then (teacher_for_user db user.id).map (fun t => t.id)
  else none

/-- The teacher-permission check of create_grade (grades.py:109): a teacher
may only grade evaluations of class groups they teach.  A missing class group
row would raise in the source (HTTP 500) and becomes `internal_error`. -/
def evaluation_permission (db : DB) (user : User) (ev : Evaluation) :
    Except ApiError Unit :=
  if user.role = .teacher then
    match teacher_for_user db user.id with
    | none => .error .permission_denied
    | some t =>
      match find_class_group db ev.class_group_id with
      | none => .error .internal_error
      | some cg =>
        if cg.teacher_id = t.id then .ok () else .error .permission_denied
  else .ok ()

/-- The teacher-permission check of update_grade/delete_grade
(grades.py:289, grades.py:339): resolves `grade.evaluation.class_group`. -/
def grade_row_permission (db : DB) (user : User) (g : Grade) :
    Except ApiError Unit :=
  if user.role = .teacher then
    match teacher_for_user db user.id with
    | none => .error .permission_denied
    | some t =>
      match find_evaluation db g.evaluation_id with
      | none => .error .internal_error
      | some ev =>
        match find_class_group db ev.class_group_id with
        | none => .error .internal_error
        | some cg =>
          if cg.teacher_id = t.id then .ok () else .error .permission_denied
  else .ok ()

/-! ## upsertGrade: POST /grades (grades.py:83, create_grade) -/

/-- `create_grade` (grades.py:86-168).  Checks required fields, resolves the
enrollment and the evaluation, checks teacher permission, validates a
non-null score against `[0, evaluation.max_score]`, then updates the existing
(enrollment, evaluation) Grade row in place or inserts a new one, and finally
recomputes and stores the enrollment's final grade.  Every `.error` return
happens before any row is written; on `.ok` it returns the post-state and the
written Grade row. -/
def create_grade (db : DB) (user : User) (input : GradeInput) :
    Except ApiError (DB × Grade) :=
  match input.enrollment_id with
  | none => .error (.field_required "enrollment_id")
  | some eid =>
  match input.evaluation_id with
  | none => .error (.field_required "evaluation_id")
  | some vid =>
  match input.score with
  | none => .error (.field_required "score")
  | some score =>
  match find_enrollment db eid with
  | none => .error (.not_found "Enrollment")
  | some _ =>
  match find_evaluation db vid with
  | none => .error (.not_found "Evaluation")
  | some ev =>
  match evaluation_permission db user ev with
  | .error e => .error e
  | .ok _ =>
  if (match score with
      | some s => decide (s < 0 ∨ ev.max_score < s)
      | none => false)
  then .error .score_out_of_range
  else
    match find_grade_by_pair db eid vid with
    | some eg =>
      let g1 : Grade :=
        { eg with
          score := score
          comments := input.comments
          graded_by :=
            if user.role = .teacher
            then (teacher_for_user db user.id).map (fun t => t.id)
            else eg.graded_by }
      let gs := db.grades.map (fun x => if x.id = eg.id then g1 else x)
      let db1 := { db with grades := gs }
      .ok (recompute_final_grade db1 eid, g1)
    | none =>
      let g1 : Grade :=
        ⟨db.next_grade_id, eid, vid, score, input.comments, grader_id db user⟩
      let db1 := { db with
        grades := db.grades ++ [g1]
        next_grade_id := db.next_grade_id + 1 }
      .ok (recompute_final_grade db1 eid, g1)

/-! ## update_grade: PUT /grades/id (grades.py:276) -/

/-- Parsed JSON body of PUT /grades/id; both keys are optional and `score`
may be bound to `null`. -/
structure GradeUpdateInput where
  score : Option (Option ℚ)
  comments : Option (Option String)
  deriving DecidableEq, Repr

/-- `update_grade` (grades.py:279-320): resolves the grade, checks teacher
permission, validates a present non-null score against the evaluation's
max_score, patches the row and recomputes the owning enrollment's final
grade. -/
def update_grade (db : DB) (user : User) (gid : Nat)
    (input : GradeUpdateInput) : Except ApiError (DB × Grade) :=
  match find_grade db gid with
  | none => .error (.not_found "Grade")
  | some g =>
  match grade_row_permission db user g with
  | .error e => .error e
  | .ok _ =>
  let scoreRes : Except ApiError (Option ℚ) :=
    match input.score with
    | none => .ok g.score
    | some newScore =>
      match newScore with
      | some s =>
        match find_evaluation db g.evaluation_id with
        | none => .error .internal_error
        | some ev =>
          if s < 0 ∨ ev.max_score < s then .error .score_out_of_range
          else .ok (some s)
      | none => .ok none
  match scoreRes with
  | .error e => .error e
  | .ok newScore =>
    let g1 : Grade :=
      { g with
        score := newScore
        comments := match input.comments with | none => g.comments | some c => c
        graded_by :=
          if user.role = .teacher
          then (teacher_for_user db user.id).map (fun t => t.id)
          else g.graded_by }
    let gs := db.grades.map (fun x => if x.id = gid then g1 else x)
    let db1 := { db with grades := gs }
    .ok (recompute_final_grade db1 g.enrollment_id, g1)

/-! ## deleteGrade: DELETE /grades/id (grades.py:326) -/

/-- `delete_grade` (grades.py:329-352): resolves the grade, checks teacher
permission, removes the row and recomputes the owning enrollment's final
grade over the remaining rows. -/
def delete_grade (db : DB) (user : User) (gid : Nat) : Except ApiError DB :=
  match find_grade db gid with
  | none => .error (.not_found "Grade")
  | some g =>
  match grade_row_permission db user g with
  | .error e => .error e
  | .ok _ =>
    let gs := db.grades.filter (fun x => ¬ x.id = gid)
    .ok (recompute_final_grade { db with grades := gs } g.enrollment_id)

/-! ## batchUpsertGrades: POST /grades/batch (grades.py:174, create_grades_batch)

The whole batch runs in one uncommitted session.  The session state pairs the
store with the per-enrollment cache of the lazily loaded `enrollment.grades`
collection: the first recomputation for an enrollment loads (and autoflushes)
the current rows and caches their ids; later recomputations for the same
enrollment reuse the cached ids, so a row inserted in between by
`session.add` (which sets the foreign key without touching the loaded
collection) is not seen. -/

/-- Session state of one batch request. -/
structure BatchState where
  db : DB
  loaded_grades : List (Nat × List Nat)
  created : Nat
  updated : Nat
  errors : List (Nat × ApiError)
  deriving DecidableEq, Repr

/-- The cached `enrollment.grades` collection, if already loaded. -/
def lookup_loaded (c : List (Nat × List Nat)) (eid : Nat) :
    Option (List Nat) :=
  (c.find? (fun p => p.1 = eid)).map (fun p => p.2)

/-- Access `enrollment.grades` inside the session: reuse the cached row ids
(dereferenced against the current store, so in-place updates are visible), or
load and cache the current rows on first access. -/
def session_grades (db : DB) (cache : List (Nat × List Nat)) (eid : Nat) :
    List Grade × List (Nat × List Nat) :=
  match lookup_loaded cache eid with
  | some ids => (ids.filterMap (fun i => find_grade db i), cache)
  | none =>
    let gs := grades_of db eid
    (gs, (eid, gs.map (fun g => g.id)) :: cache)

/-- `enrollment.final_grade = enrollment.calculate_final_grade()` inside the
batch loop (grades.py:254), before any commit: the grade rows come from the
session's possibly stale collection. -/
def batch_recompute (st : BatchState) (eid : Nat) : BatchState :=
  let p := session_grades st.db st.loaded_grades eid
  { st with
    db := set_final_grade st.db eid (calculate_final_grade_on st.db p.1)
    loaded_grades := p.2 }

/-- Score validation and upsert of one batch item, after the lookups and the
permission check succeeded (grades.py:220-254).  An absent `score` key raises
`KeyError` at `grade_data['score']`, caught by the per-item handler. -/
def batch_item_write (teacherOpt : Option TeacherRow) (st : BatchState)
    (idx : Nat) (eid vid : Nat) (ev : Evaluation) (item : GradeInput) :
    BatchState :=
  match item.score with
  | none => { st with errors := st.errors ++ [(idx, .key_error "score")] }
  | some score =>
    if (match score with
        | some s => decide (s < 0 ∨ ev.max_score < s)
        | none => false)
    then { st with errors := st.errors ++ [(idx, .score_out_of_range)] }
    else
      match find_grade_by_pair st.db eid vid with
      | some eg =>
        let g1 : Grade :=
          { eg with
            score := score
            comments := item.comments
            graded_by := teacherOpt.map (fun t => t.id) }
        let gs := st.db.grades.map (fun x => if x.id = eg.id then g1 else x)
        let st1 := { st with
          db := { st.db with grades := gs }
          updated := st.updated + 1 }
        batch_recompute st1 eid
      | none =>
        let g1 : Grade :=
          ⟨st.db.next_grade_id, eid, vid, score, item.comments,
            teacherOpt.map (fun t => t.id)⟩
        let st1 := { st with
          db := { st.db with
            grades := st.db.grades ++ [g1]
            next_grade_id := st.db.next_grade_id + 1 }
          created := st.created + 1 }
        batch_recompute st1 eid

/-- One iteration of the batch loop (grades.py:194-257).  The required-field
loop appends one error per missing key but its `continue` only skips to the
next field, so control falls through into the lookups; a missing id key then
raises `KeyError` there (caught per item), and a missing score key raises at
the validation step. -/
def batch_item (teacherOpt : Option TeacherRow) (st : BatchState) (idx : Nat)
    (item : GradeInput) : BatchState :=
  let missing : List (Nat × ApiError) :=
    (if item.enrollment_id = none
     then [(idx, ApiError.field_required "enrollment_id")] else []) ++
    (if item.evaluation_id = none
     then [(idx, ApiError.field_required "evaluation_id")] else []) ++
    (if item.score = none
     then [(idx, ApiError.field_required "score")] else [])
  let st := { st with errors := st.errors ++ missing }
  match item.enrollment_id with
  | none => { st with errors := st.errors ++ [(idx, .key_error "enrollment_id")] }
  | some eid =>
  match item.evaluation_id with
  | none => { st with errors := st.errors ++ [(idx, .key_error "evaluation_id")] }
  | some vid =>
  match find_enrollment st.db eid with
  | none => { st with errors := st.errors ++ [(idx, .not_found "Enrollment")] }
  | some _ =>
  match find_evaluation st.db vid with
  | none => { st with errors := st.errors ++ [(idx, .not_found "Evaluation")] }
  | some ev =>
  match teacherOpt with
  | some t =>
    (match find_class_group st.db ev.class_group_id with
     | none => { st with errors := st.errors ++ [(idx, .internal_error)] }
     | some cg =>
       if ¬ cg.teacher_id = t.id
       then { st with errors := st.errors ++ [(idx, .permission_denied)] }
       else batch_item_write teacherOpt st idx eid vid ev item)
  | none => batch_item_write teacherOpt st idx eid vid ev item

/-- `create_grades_batch` (grades.py:177-274).  Processes the items in order
against the session; if any error was collected the session is rolled back
(the returned store is the pre-state and the counters are 0), otherwise the
session commits and the post-state is returned.  Result:
(store, errors, created count, updated count). -/
def create_grades_batch (db : DB) (user : User) (items : List GradeInput) :
    DB × List (Nat × ApiError) × Nat × Nat :=
  if items.isEmpty then (db, [(0, .grades_array_required)], 0, 0)
  else
    let teacherOpt :=
      if user.role = .teacher then teacher_for_user db user.id else none
    let init : BatchState := ⟨db, [], 0, 0, []⟩
    let final := (items.foldl
      (fun (p : BatchState × Nat) item =>
        (batch_item teacherOpt p.1 p.2 item, p.2 + 1)) (init, 1)).1
    if final.errors.isEmpty then (final.db, [], final.created, final.updated)
    else (db, final.errors, 0, 0)

/-! ## enrollStudent: POST /classes/id/students (classes.py:272, enroll_student) -/

/-- Parsed JSON body of POST /classes/id/students. -/
structure EnrollInput where
  student_id : Option Nat
  deriving DecidableEq, Repr

/-- `Enrollment.query.filter_by(student_id=..., class_group_id=...).first()`
(classes.py:293). -/
def find_enrollment_by_pair (db : DB) (sid cid : Nat) : Option Enrollment :=
  db.enrollments.find? (fun e => e.student_id = sid ∧ e.class_group_id = cid)

/-- `enroll_student` (classes.py:275-322): resolves the class, requires a
truthy `student_id` (Python's `not data.get(...)` also rejects the id 0),
resolves the student, rejects an existing enrollment of the pair in any
status, rejects a full class (`enrolled_students_count >= max_students`), and
otherwise inserts a new enrollment with default status `enrolled`.  Every
`.error` return happens before the insert. -/
def enroll_student (db : DB) (class_id : Nat) (input : EnrollInput) :
    Except ApiError (DB × Enrollment) :=
  match find_class_group db class_id with
  | none => .error (.not_found "Class")
  | some cg =>
  match input.student_id with
  | none => .error (.field_required "student_id")
  | some sid =>
  if sid = 0 then .error (.field_required "student_id")
  else
  match find_student db sid with
  | none => .error (.not_found "Student")
  | some _ =>
  match find_enrollment_by_pair db sid class_id with
  | some _ => .error .already_enrolled
  | none =>
    if (enrolled_students_count db class_id : Int) ≥ cg.max_students
    then .error .class_full
    else
      let e : Enrollment := ⟨db.next_enrollment_id, sid, class_id, .enrolled, none⟩
      .ok ({ db with
              enrollments := db.enrollments ++ [e]
              next_enrollment_id := db.next_enrollment_id + 1 }, e)

/-! ## Transcript Builder (reports.py:407-443, get_student_transcript) -/

/-- The subject credits an enrollment contributes, obtained through
`enrollment.class_group.subject.credits`; 0 when a link is broken (in the
source a broken link raises instead, HTTP 500 — the theorems about the
transcript treat only the case where every link resolves or the row is
excluded anyway). -/
def enrollment_credits (db : DB) (e : Enrollment) : Nat :=
  (((find_class_group db e.class_group_id).bind
      (fun cg => find_subject db cg.subject_id)).map
    (fun s => s.credits)).getD 0

/-- The GPA loop of `get_student_transcript` (reports.py:407-443): over all
enrollments of the student, `if enrollment.final_grade and subject.credits:`
accumulates `final_grade * credits` and `credits` — Python truthiness, so a
final grade of exactly 0 and a credit count of 0 are skipped — and the
summary's `gpa` is the rounded quotient if the credit sum is positive, else
the initial 0. -/
def get_student_transcript_gpa (db : DB) (student_id : Nat) : ℚ :=
  let mine := db.enrollments.filter (fun e => e.student_id = student_id)
  let acc := mine.foldl (fun (acc : ℚ × ℚ) e =>
    match find_class_group db e.class_group_id with
    | none => acc
    | some cg =>
      match find_subject db cg.subject_id with
      | none => acc
      | some subj =>
        match e.final_grade with
        | none => acc
        | some g =>
          if g = 0 ∨ subj.credits = 0 then acc
          else (acc.1 + g * (subj.credits : ℚ), acc.2 + (subj.credits : ℚ)))
    (0, 0)
  if 0 < acc.2 then pyRound2 (acc.1 / acc.2) else 0

/-- The GPA exactly as claim C3 states it: the rounded credit-weighted mean
restricted to the student's enrollments with a NON-NULL final grade, and 0
when there is no such enrollment. -/
def claimed_transcript_gpa (db : DB) (student_id : Nat) : ℚ :=
  let rows := db.enrollments.filter
    (fun e => e.student_id = student_id ∧ e.final_grade.isSome)
  if rows.isEmpty then 0
  else
    pyRound2
      (((rows.map (fun e =>
          e.final_grade.getD 0 * (enrollment_credits db e : ℚ))).sum) /
        ((rows.map (fun e => (enrollment_credits db e : ℚ))).sum))

/-- The GPA restricted as the source actually restricts it: to enrollments
whose final grade is non-null AND nonzero and whose subject credits are
nonzero (Python truthiness), 0 when there is no such enrollment. -/
def truthy_transcript_gpa (db : DB) (student_id : Nat) : ℚ :=
  let rows := (db.enrollments.filter
      (fun e => e.student_id = student_id)).filter
    (fun e =>
      (match e.final_grade with
        | some g => decide (¬ g = 0)
        | none => false) = true ∧
      ¬ enrollment_credits db e = 0)
  if rows.isEmpty then 0
  else
    pyRound2
      (((rows.map (fun e =>
          e.final_grade.getD 0 * (enrollment_credits db e : ℚ))).sum) /
        ((rows.map (fun e => (enrollment_credits db e : ℚ))).sum))

/-! ## Workload/Stats Reporter (reports.py: pending grades) -/

/-- Evaluations of one class group. -/
def evaluations_of (db : DB) (cgid : Nat) : List Evaluation :=
  db.evaluations.filter (fun v => v.class_group_id = cgid)

/-- The pending-grades double loop of `get_teacher_workload`
(reports.py:499-509): for every evaluation of the class and every enrollment
of the class with status `enrolled`, count the pairs with no Grade row. -/
def pending_grades_for_class (db : DB) (cgid : Nat) : Nat :=
  (evaluations_of db cgid).foldl (fun acc v =>
    (db.enrollments.filter (fun e => e.class_group_id = cgid)).foldl
      (fun acc2 e =>
        if e.status = .enrolled then
          match find_grade_by_pair db e.id v.id with
          | none => acc2 + 1
          | some _ => acc2
        else acc2) acc) 0

/-- The admin/coordinator pending-grades loop of `get_dashboard_stats`
(reports.py:70-88): over ALL evaluations, the enrolled enrollments of the
evaluation's class with no Grade row. -/
def dashboard_pending_grades (db : DB) : Nat :=
  db.evaluations.foldl (fun acc v =>
    (db.enrollments.filter (fun e =>
        e.class_group_id = v.class_group_id ∧ e.status = .enrolled)).foldl
      (fun acc2 e =>
        match find_grade_by_pair db e.id v.id with
        | none => acc2 + 1
        | some _ => acc2) acc) 0

/-- Whether some Grade row (of any score, including null) exists for the
(enrollment, evaluation) pair. -/
def grade_row_exists (db : DB) (eid vid : Nat) : Bool :=
  db.grades.any (fun g => g.enrollment_id = eid ∧ g.evaluation_id = vid)

/-- The count exactly as claim C8 states it: the (evaluation, enrolled
enrollment) pairs of the class for which no Grade row exists at all. -/
def claimed_pending_pairs (db : DB) (cgid : Nat) : Nat :=
  ((evaluations_of db cgid) ×ˢ
      (db.enrollments.filter (fun e =>
        e.class_group_id = cgid ∧ e.status = .enrolled))).countP
    (fun p => ¬ grade_row_exists db p.2.id p.1.id)

/-- Claim C8's count over the whole store, matching the dashboard loop. -/
def claimed_pending_pairs_all (db : DB) : Nat :=
  (db.evaluations ×ˢ db.enrollments).countP
    (fun p => p.2.class_group_id = p.1.class_group_id ∧
      p.2.status = .enrolled ∧ ¬ grade_row_exists db p.2.id p.1.id)

/-! ## Read-path serialization of zero values (claim C10) -/

/-- Python's `float(x) if x else None` on a nullable numeric column: a stored
0 is falsy and serializes to null. -/
def py_truthy_num (x : Option ℚ) : Option ℚ :=
  match x with
  | some v => if v = 0 then none else some v
  | none => none

/-- `final_grade` field of `Enrollment.to_dict` (enrollment.py:59). -/
def to_dict_final_grade (e : Enrollment) : Option ℚ :=
  py_truthy_num e.final_grade

/-- `final_grade` field of the gradebook's per-student enrollment record
(grades.py:496). -/
def gradebook_final_grade (e : Enrollment) : Option ℚ :=
  py_truthy_num e.final_grade

/-- `final_grade` field of the class student list (classes.py:258). -/
def class_students_final_grade (e : Enrollment) : Option ℚ :=
  py_truthy_num e.final_grade

/-- `score` field of one gradebook cell (grades.py:511):
`float(grade.score) if grade and grade.score else None`. -/
def gradebook_cell_score (g : Option Grade) : Option ℚ :=
  match g with
  | none => none
  | some gr => py_truthy_num gr.score

/-! ## Spec-side form of the Grade Aggregator (for claim C1) -/

/-- The weight of the evaluation a grade refers to (0 if unresolvable; the
C1 theorem assumes every referenced evaluation resolves). -/
def eval_weight (db : DB) (g : Grade) : ℚ :=
  ((find_evaluation db g.evaluation_id).map (fun ev => ev.weight)).getD 0

/-- The final grade exactly as claim C1 states it: over the enrollment's
grades with a non-null score, `round(Σ score·weight / Σ weight, 2)`; null
when there is no such grade or their total weight is 0. -/
def claimed_final_grade (db : DB) (eid : Nat) : Option ℚ :=
  let scored := (grades_of db eid).filter (fun g => g.score.isSome)
  let den := (scored.map (fun g => eval_weight db g)).sum
  if scored.isEmpty ∨ den = 0 then none
  else
    some (pyRound2
      (((scored.map (fun g => g.score.getD 0 * eval_weight db g)).sum) / den))

/-! ## Generic accumulation lemmas -/

/-- A fold that adds an optional pair per element computes the component-wise
sums over the elements that yield a pair. -/
theorem foldl_pair_sum {α : Type} (f : α → Option (ℚ × ℚ))
    (step : ℚ × ℚ → α → ℚ × ℚ)
    (hstep : ∀ acc x, step acc x =
      match f x with
      | some pq => (acc.1 + pq.1, acc.2 + pq.2)
      | none => acc)
    (l : List α) (a b : ℚ) :
    l.foldl step (a, b) =
      (a + ((l.filterMap f).map Prod.fst).sum,
       b + ((l.filterMap f).map Prod.snd).sum) := by
  induction l generalizing a b with
  | nil => simp
  | cons x xs ih =>
    rw [List.foldl_cons, hstep]
    cases hfx : f x with
    | none => simp only [List.filterMap_cons, hfx]; exact ih a b
    | some pq =>
      simp only [List.filterMap_cons, hfx, List.map_cons, List.sum_cons]
      rw [ih]
      congr 1 <;> ring

/-- A fold that adds 1 per element satisfying a predicate counts the
satisfying elements. -/
theorem foldl_count {α : Type} (p : α → Bool) (step : Nat → α → Nat)
    (hstep : ∀ acc x, step acc x = if p x then acc + 1 else acc)
    (l : List α) (n : Nat) :
    l.foldl step n = n + l.countP p := by
  induction l generalizing n with
  | nil => simp
  | cons x xs ih =>
    rw [List.foldl_cons, hstep, List.countP_cons]
    by_cases hx : p x
    · simp [hx, ih]
      omega
    · simp [hx, ih]

/-! ## Claim theorems -/

/-- C4: for every enrollment, the attendance percentage equals
`round(|present or late| / |records| * 100, 2)` when there is at least one
record, lies in [0, 100], counts `late` as attended and `justified` as not
attended (the three-record example {present, late, justified} gives 66.67),
and equals 0 for zero records rather than null or an error. -/
theorem C4_attendance_percentage (records : List Attendance) :
    (attendance_percentage records =
      if records.length = 0 then 0
      else pyRound2 (((records.countP
            (fun a => a.status = .present ∨ a.status = .late) : ℚ) /
          (records.length : ℚ)) * 100)) ∧
    0 ≤ attendance_percentage records ∧
    attendance_percentage records ≤ 100 ∧
    attendance_percentage [⟨.present⟩, ⟨.late⟩, ⟨.justified⟩] = 6667/100 := by
  have hcount : ∀ l : List Attendance,
      (l.filter (fun a => a.status = .present ∨ a.status = .late)).length
        = l.countP (fun a => a.status = .present ∨ a.status = .late) := by
    intro l; rw [List.countP_eq_length_filter]
  refine ⟨?_, ?_, ?_, ?_⟩
  · unfold attendance_percentage
    cases records with
    | nil => simp
    | cons r rs =>
      simp only [List.isEmpty_cons, if_false, Bool.false_eq_true]
      rw [hcount]
      simp [Nat.succ_ne_zero]
  · unfold attendance_percentage
    cases hrec : records.isEmpty
    · simp only [Bool.false_eq_true, if_false]
      have hlen : 0 < records.length := by
        cases records with
        | nil => simp at hrec
        | cons r rs => simp
      have h0 : (0:ℚ) <
          ((records.filter (fun a => a.status = .present ∨ a.status = .late)).length : ℚ)
            / (records.length : ℚ) * 100 ∨
          (0:ℚ) ≤
          ((records.filter (fun a => a.status = .present ∨ a.status = .late)).length : ℚ)
            / (records.length : ℚ) * 100 := by
        right
        positivity
      rcases h0 with h0 | h0
      · simp only [hlen, if_pos]
        exact pyRound2_nonneg _ (le_of_lt h0)
      · simp only [hlen, if_pos]
        exact pyRound2_nonneg _ h0
    · simp
  · unfold attendance_percentage
    cases hrec : records.isEmpty
    · simp only [Bool.false_eq_true, if_false]
      have hlen : 0 < records.length := by
        cases records with
        | nil => simp at hrec
        | cons r rs => simp
      have hle : ((records.filter
            (fun a => a.status = .present ∨ a.status = .late)).length : ℚ)
          ≤ (records.length : ℚ) := by
        exact_mod_cast List.length_filter_le _ records
      have hratio : ((records.filter
            (fun a => a.status = .present ∨ a.status = .late)).length : ℚ)
          / (records.length : ℚ) * 100 ≤ 100 := by
        have hpos : (0:ℚ) < (records.length : ℚ) := by exact_mod_cast hlen
        have : ((records.filter
            (fun a => a.status = .present ∨ a.status = .late)).length : ℚ)
            / (records.length : ℚ) ≤ 1 := by
          rw [div_le_one hpos]; exact hle
        nlinarith
      simp only [hlen, if_pos]
      exact pyRound2_le_hundred _ hratio
    · simp
  · have h1 : attendance_percentage [⟨.present⟩, ⟨.late⟩, ⟨.justified⟩]
        = pyRound2 ((2:ℚ)/3*100) := by
      simp [attendance_percentage]
    rw [h1]
    norm_num [pyRound2, pyRoundInt]

/-- C10: every read path that serializes an enrollment (`Enrollment.to_dict`,
the class gradebook, the class student list) reports a stored final grade of
exactly 0 as null, identically to an ungraded enrollment, and the gradebook
reports a Grade row with score exactly 0 as a null score. -/
theorem C10_zero_reads_as_null (e e0 : Enrollment) (g : Grade)
    (h : e.final_grade = some 0) (h0 : e0.final_grade = none)
    (hg : g.score = some 0) :
    to_dict_final_grade e = none ∧
    gradebook_final_grade e = none ∧
    class_students_final_grade e = none ∧
    to_dict_final_grade e = to_dict_final_grade e0 ∧
    gradebook_cell_score (some g) = none := by
  simp [to_dict_final_grade, gradebook_final_grade, class_students_final_grade,
    gradebook_cell_score, py_truthy_num, h, h0, hg]

/-- Witness for C10 at a concrete enrollment with stored final grade 0, a
concrete ungraded enrollment, and a concrete grade with score 0. -/
theorem C10_zero_reads_as_null_witness :
    to_dict_final_grade ⟨1, 1, 1, .enrolled, some 0⟩ = none ∧
    gradebook_final_grade ⟨1, 1, 1, .enrolled, some 0⟩ = none ∧
    class_students_final_grade ⟨1, 1, 1, .enrolled, some 0⟩ = none ∧
    to_dict_final_grade ⟨1, 1, 1, .enrolled, some 0⟩ =
      to_dict_final_grade ⟨2, 1, 1, .enrolled, none⟩ ∧
    gradebook_cell_score (some ⟨1, 1, 1, some 0, none, none⟩) = none :=
  C10_zero_reads_as_null ⟨1, 1, 1, .enrolled, some 0⟩
    ⟨2, 1, 1, .enrolled, none⟩ ⟨1, 1, 1, some 0, none, none⟩ rfl rfl rfl

/-- C6: with the class group and the student resolving, `enroll_student`
fails with the already-enrolled error when any enrollment of the pair exists,
fails with the class-full error when the enrolled count has reached
`max_students`, and otherwise inserts exactly one new `enrolled` row; every
failing return is produced before the insert, so the store is untouched. -/
theorem C6_enroll_capacity (db : DB) (cid : Nat) (inp : EnrollInput)
    (cg : ClassGroup) (sid : Nat) (stu : StudentRow)
    (hcg : find_class_group db cid = some cg)
    (hsid : inp.student_id = some sid) (hs0 : ¬ sid = 0)
    (hstu : find_student db sid = some stu) :
    ((find_enrollment_by_pair db sid cid).isSome →
      enroll_student db cid inp = .error .already_enrolled) ∧
    (find_enrollment_by_pair db sid cid = none →
      ((enrolled_students_count db cid : Int) ≥ cg.max_students →
        enroll_student db cid inp = .error .class_full) ∧
      ((enrolled_students_count db cid : Int) < cg.max_students →
        enroll_student db cid inp = .ok
          ({ db with
              enrollments := db.enrollments ++
                [⟨db.next_enrollment_id, sid, cid, .enrolled, none⟩],
              next_enrollment_id := db.next_enrollment_id + 1 },
            ⟨db.next_enrollment_id, sid, cid, .enrolled, none⟩))) := by
  refine ⟨?_, ?_⟩
  · intro h
    obtain ⟨x, hx⟩ := Option.isSome_iff_exists.mp h
    simp [enroll_student, hcg, hsid, hs0, hstu, hx]
  · intro hnone
    refine ⟨?_, ?_⟩
    · intro hcap
      simp [enroll_student, hcg, hsid, hs0, hstu, hnone, hcap]
    · intro hcap
      simp [enroll_student, hcg, hsid, hs0, hstu, hnone, not_le.mpr hcap]

/-- Pre-state of the C6 witness: one class with capacity 1 already holding
one enrolled student, and a second student wanting in. -/
def c6_db_full : DB :=
  { subjects := [⟨1, 4⟩]
    class_groups := [⟨1, 1, 1, 1⟩]
    teachers := [⟨1, 1⟩]
    students := [⟨1, 10⟩, ⟨2, 11⟩]
    enrollments := [⟨1, 1, 1, .enrolled, none⟩]
    evaluations := []
    grades := []
    next_grade_id := 1
    next_enrollment_id := 2 }

/-- The same class with capacity 2, so the second student fits. -/
def c6_db_free : DB :=
  { c6_db_full with class_groups := [⟨1, 1, 1, 2⟩] }

/-- Witness for C6: at capacity the enrollment is rejected with the
class-full error; with one seat left it succeeds and appends one row. -/
theorem C6_enroll_capacity_witness :
    enroll_student c6_db_full 1 ⟨some 2⟩ = .error .class_full ∧
    enroll_student c6_db_free 1 ⟨some 2⟩ = .ok
      ({ c6_db_free with
          enrollments := c6_db_free.enrollments ++
            [⟨c6_db_free.next_enrollment_id, 2, 1, .enrolled, none⟩],
          next_enrollment_id := c6_db_free.next_enrollment_id + 1 },
        ⟨c6_db_free.next_enrollment_id, 2, 1, .enrolled, none⟩) := by
  constructor
  · exact ((C6_enroll_capacity c6_db_full 1 ⟨some 2⟩ ⟨1, 1, 1, 1⟩ 2 ⟨2, 11⟩
      rfl rfl (by decide) rfl).2 (by decide)).1 (by decide)
  · exact ((C6_enroll_capacity c6_db_free 1 ⟨some 2⟩ ⟨1, 1, 1, 2⟩ 2 ⟨2, 11⟩
      rfl rfl (by decide) rfl).2 (by decide)).2 (by decide)

/-- C9: with the required keys present, the enrollment and evaluation
resolving and the permission check passing, `create_grade` with a non-null
score fails if and only if the score is negative or exceeds the evaluation's
`max_score`, and the failure is exactly the score-range error, produced
before any row is written; a null score is accepted and stored as an
ungraded entry. -/
theorem C9_score_validation (db : DB) (user : User) (inp : GradeInput)
    (eid vid : Nat) (enr : Enrollment) (ev : Evaluation)
    (h1 : inp.enrollment_id = some eid) (h2 : inp.evaluation_id = some vid)
    (he : find_enrollment db eid = some enr)
    (hv : find_evaluation db vid = some ev)
    (hp : evaluation_permission db user ev = .ok ()) :
    (∀ s, inp.score = some (some s) →
      ((s < 0 ∨ ev.max_score < s) →
        create_grade db user inp = .error .score_out_of_range) ∧
      (¬ (s < 0 ∨ ev.max_score < s) →
        ∃ r, create_grade db user inp = .ok r)) ∧
    (inp.score = some none →
      ∃ r, create_grade db user inp = .ok r ∧ r.2.score = none) := by
  constructor
  · intro s hs
    constructor
    · intro hrange
      simp [create_grade, h1, h2, hs, he, hv, hp, hrange]
    · intro hrange
      cases hres : create_grade db user inp with
      | ok r => exact ⟨r, rfl⟩
      | error e =>
        exfalso
        cases hfp : find_grade_by_pair db eid vid <;>
          simp [create_grade, h1, h2, hs, he, hv, hp, hrange, hfp] at hres
  · intro hs
    cases hres : create_grade db user inp with
    | ok r =>
      refine ⟨r, rfl, ?_⟩
      cases hfp : find_grade_by_pair db eid vid with
      | some eg =>
        simp [create_grade, h1, h2, hs, he, hv, hp, hfp] at hres
        rw [← hres]
      | none =>
        simp [create_grade, h1, h2, hs, he, hv, hp, hfp] at hres
        rw [← hres]
    | error e =>
      exfalso
      cases hfp : find_grade_by_pair db eid vid <;>
        simp [create_grade, h1, h2, hs, he, hv, hp, hfp] at hres

/-- Pre-state of the C9 witness: one enrollment and one evaluation with
max_score 10, no grades yet. -/
def c9_db : DB :=
  { subjects := [⟨1, 4⟩]
    class_groups := [⟨1, 1, 1, 50⟩]
    teachers := [⟨1, 1⟩]
    students := [⟨1, 10⟩]
    enrollments := [⟨1, 1, 1, .enrolled, none⟩]
    evaluations := [⟨1, 1, 1, 10⟩]
    grades := []
    next_grade_id := 1
    next_enrollment_id := 2 }

/-- Witness for C9: a score of 15 against max_score 10 is rejected with the
range error, and a null score is accepted as an ungraded row. -/
theorem C9_score_validation_witness :
    create_grade c9_db ⟨99, .admin⟩ ⟨some 1, some 1, some (some 15), none⟩ =
      .error .score_out_of_range ∧
    ∃ r, create_grade c9_db ⟨99, .admin⟩ ⟨some 1, some 1, some none, none⟩ =
      .ok r ∧ r.2.score = none := by
  constructor
  · exact ((C9_score_validation c9_db ⟨99, .admin⟩
        ⟨some 1, some 1, some (some 15), none⟩ 1 1
        ⟨1, 1, 1, .enrolled, none⟩ ⟨1, 1, 1, 10⟩ rfl rfl rfl rfl rfl).1
      15 rfl).1 (by norm_num)
  · exact (C9_score_validation c9_db ⟨99, .admin⟩
        ⟨some 1, some 1, some none, none⟩ 1 1
        ⟨1, 1, 1, .enrolled, none⟩ ⟨1, 1, 1, 10⟩ rfl rfl rfl rfl rfl).2 rfl

/-- Under referential integrity, the optional pair produced per grade row by
the aggregator loop is exactly a pair for each row with a non-null score. -/
theorem filterMap_scored (db : DB) (l : List Grade)
    (hres : ∀ g ∈ l, g.score.isSome = true →
      (find_evaluation db g.evaluation_id).isSome = true) :
    l.filterMap (fun g =>
      match g.score, find_evaluation db g.evaluation_id with
      | some s, some ev => some (s * ev.weight, ev.weight)
      | _, _ => none) =
    (l.filter (fun g => g.score.isSome)).map
      (fun g => (g.score.getD 0 * eval_weight db g, eval_weight db g)) := by
  induction l with
  | nil => simp
  | cons g gs ih =>
    have hg := hres g (by simp)
    have ih2 := ih (fun x hx hs => hres x (by simp [hx]) hs)
    cases hsc : g.score with
    | none => simpa [List.filterMap_cons, hsc] using ih2
    | some s =>
      have hev := hg (by simp [hsc])
      obtain ⟨ev, hev⟩ := Option.isSome_iff_exists.mp hev
      simp [List.filterMap_cons, hsc, hev, ih2, eval_weight]

/-- C1: under referential integrity (every scored grade's evaluation
resolves) and nonnegative weights (the data model declares weights positive),
`Enrollment.calculate_final_grade` returns exactly the value the claim
states: `round(Σ score·weight / Σ weight, 2)` over the grades with a
non-null score, and null when there is no such grade or their total weight
is zero. -/
theorem C1_final_grade_weighted_mean (db : DB) (eid : Nat)
    (hres : ∀ g ∈ grades_of db eid, g.score.isSome = true →
      (find_evaluation db g.evaluation_id).isSome = true)
    (hw : ∀ g ∈ grades_of db eid, 0 ≤ eval_weight db g) :
    calculate_final_grade db eid = claimed_final_grade db eid := by
  have hstep : ∀ (acc : ℚ × ℚ) (g : Grade),
      (fun (acc : ℚ × ℚ) g =>
        match g.score, find_evaluation db g.evaluation_id with
        | some s, some ev => (acc.1 + s * ev.weight, acc.2 + ev.weight)
        | _, _ => acc) acc g =
      match (fun g =>
        match g.score, find_evaluation db g.evaluation_id with
        | some s, some ev => some (s * ev.weight, ev.weight)
        | _, _ => none) g with
      | some pq => (acc.1 + pq.1, acc.2 + pq.2)
      | none => acc := by
    intro acc g
    cases hsc : g.score <;> cases hev : find_evaluation db g.evaluation_id <;>
      simp [hsc, hev]
  have hfold := foldl_pair_sum _ _ hstep (grades_of db eid) 0 0
  rw [filterMap_scored db (grades_of db eid) hres] at hfold
  unfold calculate_final_grade calculate_final_grade_on claimed_final_grade
  simp only [hfold, List.map_map, zero_add]
  have hfst : (Prod.fst ∘ fun g =>
      (g.score.getD 0 * eval_weight db g, eval_weight db g)) =
      fun g : Grade => g.score.getD 0 * eval_weight db g := rfl
  have hsnd : (Prod.snd ∘ fun g =>
      (g.score.getD 0 * eval_weight db g, eval_weight db g)) =
      fun g : Grade => eval_weight db g := rfl
  rw [hfst, hsnd]
  set scored := (grades_of db eid).filter (fun g => g.score.isSome) with hscored
  set den := (scored.map (fun g => eval_weight db g)).sum with hden
  have hnn : 0 ≤ den := by
    rw [hden]
    apply List.sum_nonneg
    intro x hx
    obtain ⟨g, hgmem, hgx⟩ := List.mem_map.mp hx
    have : g ∈ grades_of db eid := List.mem_of_mem_filter hgmem
    rw [← hgx]
    exact hw g this
  by_cases hl : (grades_of db eid).isEmpty
  · have : grades_of db eid = [] := by simpa [List.isEmpty_iff] using hl
    simp [this, hscored]
  · simp only [hl, if_false, Bool.false_eq_true]
    by_cases hsc : scored.isEmpty
    · have hsc2 : scored = [] := by simpa [List.isEmpty_iff] using hsc
      simp [hsc2, hden]
    · by_cases hd0 : den = 0
      · simp [hd0, hsc]
      · have hpos : 0 < den := lt_of_le_of_ne hnn (Ne.symm hd0)
        simp [hsc, hd0, hpos]

/-- Pre-state of the C1 witness: the scenario of the spec, evaluation A with
weight 2 and max_score 10 graded 8, evaluation B with weight 1 and
max_score 5 graded 5. -/
def c1_db : DB :=
  { subjects := [⟨1, 4⟩]
    class_groups := [⟨1, 1, 1, 50⟩]
    teachers := [⟨1, 1⟩]
    students := [⟨1, 10⟩]
    enrollments := [⟨1, 1, 1, .enrolled, none⟩]
    evaluations := [⟨1, 1, 2, 10⟩, ⟨2, 1, 1, 5⟩]
    grades := [⟨1, 1, 1, some 8, none, none⟩, ⟨2, 1, 2, some 5, none, none⟩]
    next_grade_id := 3
    next_enrollment_id := 2 }

/-- Witness for C1 at the spec's concrete scenario: both forms agree and
give `round((8·2 + 5·1)/(2 + 1), 2) = 7.0`. -/
theorem C1_final_grade_weighted_mean_witness :
    calculate_final_grade c1_db 1 = claimed_final_grade c1_db 1 ∧
    calculate_final_grade c1_db 1 = some 7 := by
  constructor
  · exact C1_final_grade_weighted_mean c1_db 1
      (by intro g hg hs; revert hg; simp [c1_db, grades_of, find_evaluation];
          rintro (rfl | rfl) <;> simp)
      (by intro g hg; revert hg; simp [c1_db, grades_of];
          rintro (rfl | rfl) <;> norm_num [eval_weight, find_evaluation, c1_db])
  · have h1 : calculate_final_grade c1_db 1 = some (pyRound2 (21/3)) := by
      simp [calculate_final_grade, calculate_final_grade_on, grades_of, c1_db,
        find_evaluation]
      norm_num
    rw [h1]
    norm_num [pyRound2, pyRoundInt]

/-- A filterMap whose function answers exactly on a decidable subset is the
map over the filtered list. -/
theorem filterMap_eq_filter_map {α β : Type} (f : α → Option β)
    (p : α → Bool) (v : α → β) (l : List α)
    (h : ∀ x ∈ l, f x = if p x = true then some (v x) else none) :
    l.filterMap f = (l.filter p).map v := by
  induction l with
  | nil => simp
  | cons x xs ih =>
    have hx := h x (by simp)
    have ih2 := ih (fun y hy => h y (by simp [hy]))
    by_cases hp : p x
    · simp [List.filterMap_cons, hx, hp, ih2]
    · simp [List.filterMap_cons, hx, hp, ih2]

/-- C3 counterexample pre-state: student 1 has one enrollment with a stored
final grade of exactly 0 in a 4-credit subject and one with final grade 6.0
in a 2-credit subject. -/
def c3_db : DB :=
  { subjects := [⟨1, 4⟩, ⟨2, 2⟩]
    class_groups := [⟨1, 1, 1, 50⟩, ⟨2, 2, 1, 50⟩]
    teachers := [⟨1, 1⟩]
    students := [⟨1, 10⟩]
    enrollments := [⟨1, 1, 1, .enrolled, some 0⟩, ⟨2, 1, 2, .enrolled, some 6⟩]
    evaluations := []
    grades := []
    next_grade_id := 1
    next_enrollment_id := 3 }

/-- Counterexample to C3 as stated: the transcript restricts the GPA to
truthy final grades, so the enrollment whose final grade is exactly 0 is
dropped from both sums.  The code reports round(6·2/2, 2) = 6.0 while the
claim's formula over the non-null final grades gives
round((0·4 + 6·2)/(4 + 2), 2) = 2.0. -/
theorem C3_zero_final_grade_gpa_counterexample :
    get_student_transcript_gpa c3_db 1 = 6 ∧
    claimed_transcript_gpa c3_db 1 = 2 ∧
    ¬ get_student_transcript_gpa c3_db 1 = claimed_transcript_gpa c3_db 1 := by
  have h1 : get_student_transcript_gpa c3_db 1 = pyRound2 (12/2) := by
    simp [get_student_transcript_gpa, c3_db, find_class_group, find_subject]
    norm_num
  have h2 : claimed_transcript_gpa c3_db 1 = pyRound2 (12/6) := by
    simp [claimed_transcript_gpa, c3_db, enrollment_credits, find_class_group,
      find_subject]
    norm_num
  refine ⟨?_, ?_, ?_⟩
  · rw [h1]; norm_num [pyRound2, pyRoundInt]
  · rw [h2]; norm_num [pyRound2, pyRoundInt]
  · rw [h1, h2]; norm_num [pyRound2, pyRoundInt]

/-- The transcript example pre-state of the claim: final grade 8.0 in a
4-credit subject and 6.0 in a 2-credit subject. -/
def c3_example_db : DB :=
  { c3_db with
    enrollments := [⟨1, 1, 1, .enrolled, some 8⟩, ⟨2, 1, 2, .enrolled, some 6⟩] }

/-- C3 (amended): the transcript's gpa equals
`round((Σ final_grade·credits)/(Σ credits), 2)` restricted to exactly the
student's enrollments whose final_grade is non-null AND nonzero and whose
subject credits are nonzero (Python truthiness), and equals 0 when there is
no such enrollment; the claim's example [(8.0, 4 cr), (6.0, 2 cr)] still
gives 7.33. -/
theorem C3_gpa_truthy_restriction (db : DB) (sid : Nat) :
    get_student_transcript_gpa db sid = truthy_transcript_gpa db sid ∧
    get_student_transcript_gpa c3_example_db 1 = 733/100 := by
  constructor
  · have hstep : ∀ (acc : ℚ × ℚ) (e : Enrollment),
        (fun (acc : ℚ × ℚ) e =>
          match find_class_group db e.class_group_id with
          | none => acc
          | some cg =>
            match find_subject db cg.subject_id with
            | none => acc
            | some subj =>
              match e.final_grade with
              | none => acc
              | some g =>
                if g = 0 ∨ subj.credits = 0 then acc
                else (acc.1 + g * (subj.credits : ℚ),
                  acc.2 + (subj.credits : ℚ))) acc e =
        match (fun e =>
          match find_class_group db e.class_group_id with
          | none => none
          | some cg =>
            match find_subject db cg.subject_id with
            | none => none
            | some subj =>
              match e.final_grade with
              | none => none
              | some g =>
                if g = 0 ∨ subj.credits = 0 then none
                else some (g * (subj.credits : ℚ), (subj.credits : ℚ))) e with
        | some pq => (acc.1 + pq.1, acc.2 + pq.2)
        | none => acc := by
      intro acc e
      cases hcg : find_class_group db e.class_group_id with
      | none => simp [hcg]
      | some cg =>
        cases hsubj : find_subject db cg.subject_id with
        | none => simp [hcg, hsubj]
        | some subj =>
          cases hfg : e.final_grade with
          | none => simp [hcg, hsubj, hfg]
          | some g =>
            by_cases hz : g = 0 ∨ subj.credits = 0 <;>
              simp [hcg, hsubj, hfg, hz]
    have hfm : ∀ e ∈ db.enrollments.filter (fun e => e.student_id = sid),
        (fun e =>
          match find_class_group db e.class_group_id with
          | none => none
          | some cg =>
            match find_subject db cg.subject_id with
            | none => none
            | some subj =>
              match e.final_grade with
              | none => none
              | some g =>
                if g = 0 ∨ subj.credits = 0 then none
                else some (g * (subj.credits : ℚ), (subj.credits : ℚ))) e =
        if decide ((match e.final_grade with
              | some g => decide (¬ g = 0)
              | none => false) = true ∧
            ¬ enrollment_credits db e = 0) = true
        then some (e.final_grade.getD 0 * (enrollment_credits db e : ℚ),
          (enrollment_credits db e : ℚ))
        else none := by
      intro e _
      cases hcg : find_class_group db e.class_group_id with
      | none =>
        have hc : enrollment_credits db e = 0 := by
          simp [enrollment_credits, hcg]
        simp [hcg, hc]
      | some cg =>
        cases hsubj : find_subject db cg.subject_id with
        | none =>
          have hc : enrollment_credits db e = 0 := by
            simp [enrollment_credits, hcg, hsubj]
          simp [hcg, hsubj, hc]
        | some subj =>
          have hc : enrollment_credits db e = subj.credits := by
            simp [enrollment_credits, hcg, hsubj]
          cases hfg : e.final_grade with
          | none => simp [hcg, hsubj, hfg]
          | some g =>
            by_cases hz : g = 0
            · simp [hcg, hsubj, hfg, hz]
            · by_cases hcr : subj.credits = 0
              · simp [hcg, hsubj, hfg, hz, hcr, hc]
              · simp [hcg, hsubj, hfg, hz, hcr, hc]
    have hfold := foldl_pair_sum _ _ hstep
      (db.enrollments.filter (fun e => e.student_id = sid)) 0 0
    rw [filterMap_eq_filter_map _ _ _ _ hfm] at hfold
    unfold get_student_transcript_gpa truthy_transcript_gpa
    simp only [hfold, List.map_map, zero_add]
    set rows := (db.enrollments.filter (fun e => e.student_id = sid)).filter
      (fun e =>
        (match e.final_grade with
          | some g => decide (¬ g = 0)
          | none => false) = true ∧
        ¬ enrollment_credits db e = 0) with hrows
    have hfst : (Prod.fst ∘ fun e =>
        (e.final_grade.getD 0 * (enrollment_credits db e : ℚ),
          (enrollment_credits db e : ℚ))) =
        fun e : Enrollment =>
          e.final_grade.getD 0 * (enrollment_credits db e : ℚ) := rfl
    have hsnd : (Prod.snd ∘ fun e =>
        (e.final_grade.getD 0 * (enrollment_credits db e : ℚ),
          (enrollment_credits db e : ℚ))) =
        fun e : Enrollment => (enrollment_credits db e : ℚ) := rfl
    rw [hfst, hsnd]
    by_cases hr : rows.isEmpty
    · have : rows = [] := by simpa [List.isEmpty_iff] using hr
      simp [this]
    · have hne : rows ≠ [] := by simpa [List.isEmpty_iff] using hr
      have hpos : 0 < (rows.map
          (fun e => (enrollment_credits db e : ℚ))).sum := by
        apply List.sum_pos
        · intro x hx
          obtain ⟨e, hemem, hex⟩ := List.mem_map.mp hx
          have hp := List.of_mem_filter hemem
          have : ¬ enrollment_credits db e = 0 := by
            simpa using (of_decide_eq_true hp).2
          rw [← hex]
          exact_mod_cast Nat.pos_of_ne_zero this
        · simpa using hne
      simp [hr, hpos]
  · have h1 : get_student_transcript_gpa c3_example_db 1 = pyRound2 (44/6) := by
      simp [get_student_transcript_gpa, c3_example_db, c3_db, find_class_group,
        find_subject]
      norm_num
    rw [h1]
    norm_num [pyRound2, pyRoundInt]

/-- A fold that adds `f x` per element computes the sum of the images. -/
theorem foldl_add {α : Type} (f : α → Nat) (step : Nat → α → Nat)
    (hstep : ∀ acc x, step acc x = acc + f x) (l : List α) (n : Nat) :
    l.foldl step n = n + (l.map f).sum := by
  induction l generalizing n with
  | nil => simp
  | cons x xs ih =>
    rw [List.foldl_cons, hstep, ih, List.map_cons, List.sum_cons]
    omega

/-- Counting over a cross product is summing the per-left-element counts. -/
theorem countP_product {α β : Type} (l1 : List α) (l2 : List β)
    (pr : α × β → Bool) :
    (l1 ×ˢ l2).countP pr =
      (l1.map (fun a => l2.countP (fun b => pr (a, b)))).sum := by
  induction l1 with
  | nil => simp [SProd.sprod, List.product]
  | cons a l1 ih =>
    rw [List.product_cons, List.countP_append, List.countP_map, ih]
    rfl

/-- Absence of a Grade row for a pair, in find? and in existence form. -/
theorem find_pair_none_iff (db : DB) (eid vid : Nat) :
    find_grade_by_pair db eid vid = none ↔ ¬ grade_row_exists db eid vid := by
  simp [find_grade_by_pair, grade_row_exists, List.find?_eq_none,
    List.any_eq_true]

/-- C8: both reports count pending grades as the number of (evaluation,
enrolled enrollment) pairs with no Grade row at all — the score of an
existing row, null included, is never consulted. -/
theorem C8_pending_grades_count (db : DB) (cgid : Nat) :
    pending_grades_for_class db cgid = claimed_pending_pairs db cgid ∧
    dashboard_pending_grades db = claimed_pending_pairs_all db := by
  constructor
  · unfold pending_grades_for_class claimed_pending_pairs
    have hinner : ∀ (acc : Nat) (v : Evaluation),
        (db.enrollments.filter (fun e => e.class_group_id = cgid)).foldl
          (fun acc2 e =>
            if e.status = .enrolled then
              match find_grade_by_pair db e.id v.id with
              | none => acc2 + 1
              | some _ => acc2
            else acc2) acc =
        acc + ((db.enrollments.filter (fun e => e.class_group_id = cgid)).countP
          (fun e => e.status = .enrolled ∧
            find_grade_by_pair db e.id v.id = none)) := by
      intro acc v
      rw [foldl_count (fun e => decide (e.status = .enrolled ∧
          find_grade_by_pair db e.id v.id = none)) _ ?_ _ acc]
      intro acc2 e
      by_cases hst : e.status = .enrolled
      · cases hfp : find_grade_by_pair db e.id v.id <;> simp [hst, hfp]
      · simp [hst]
    rw [foldl_add (fun v =>
        (db.enrollments.filter (fun e => e.class_group_id = cgid)).countP
          (fun e => e.status = .enrolled ∧
            find_grade_by_pair db e.id v.id = none)) _ hinner _ 0]
    rw [countP_product]
    simp only [Nat.zero_add]
    congr 1
    apply List.map_congr_left
    intro v _
    rw [List.countP_filter, List.countP_filter]
    apply List.countP_congr
    intro e _
    simp only [decide_eq_true_eq, Bool.and_eq_true]
    rw [find_pair_none_iff]
    tauto
  · unfold dashboard_pending_grades claimed_pending_pairs_all
    have hinner : ∀ (acc : Nat) (v : Evaluation),
        (db.enrollments.filter (fun e =>
            e.class_group_id = v.class_group_id ∧
            e.status = .enrolled)).foldl
          (fun acc2 e =>
            match find_grade_by_pair db e.id v.id with
            | none => acc2 + 1
            | some _ => acc2) acc =
        acc + ((db.enrollments.filter (fun e =>
            e.class_group_id = v.class_group_id ∧
            e.status = .enrolled)).countP
          (fun e => find_grade_by_pair db e.id v.id = none)) := by
      intro acc v
      rw [foldl_count (fun e =>
          decide (find_grade_by_pair db e.id v.id = none)) _ ?_ _ acc]
      intro acc2 e
      cases hfp : find_grade_by_pair db e.id v.id <;> simp [hfp]
    rw [foldl_add (fun v => (db.enrollments.filter (fun e =>
        e.class_group_id = v.class_group_id ∧
        e.status = .enrolled)).countP
          (fun e => find_grade_by_pair db e.id v.id = none)) _ hinner _ 0]
    rw [countP_product]
    simp only [Nat.zero_add]
    congr 1
    apply List.map_congr_left
    intro v _
    rw [List.countP_filter]
    apply List.countP_congr
    intro e _
    simp only [decide_eq_true_eq, Bool.and_eq_true]
    rw [find_pair_none_iff]
    tauto

/-- Pre-state of the C2 batch run: one enrollment in class 1 with no grades,
and two evaluations of that class, each of weight 1 and max_score 10. -/
def c2_db : DB :=
  { subjects := [⟨1, 4⟩]
    class_groups := [⟨1, 1, 1, 50⟩]
    teachers := [⟨1, 1⟩]
    students := [⟨1, 10⟩]
    enrollments := [⟨1, 1, 1, .enrolled, none⟩]
    evaluations := [⟨1, 1, 1, 10⟩, ⟨2, 1, 1, 10⟩]
    grades := []
    next_grade_id := 1
    next_enrollment_id := 2 }

/-- One batch request carrying two new grades for the same enrollment:
score 10 on evaluation 1 and score 0 on evaluation 2. -/
def c2_items : List GradeInput :=
  [⟨some 1, some 1, some (some 10), none⟩, ⟨some 1, some 2, some (some 0), none⟩]

/-- C2 is violated by the batch path: the request succeeds with two created
rows, but the committed final grade is 10.0 — the recomputation after the
second insert read the session's stale, lazily-cached grades collection that
misses the new row — while the Grade Aggregator over the then-current rows
gives round((10·1 + 0·1)/(1 + 1), 2) = 5.0. -/
theorem C2_batch_stale_recompute :
    (create_grades_batch c2_db ⟨99, .admin⟩ c2_items).2.1 = [] ∧
    (create_grades_batch c2_db ⟨99, .admin⟩ c2_items).2.2.1 = 2 ∧
    find_enrollment (create_grades_batch c2_db ⟨99, .admin⟩ c2_items).1 1 =
      some ⟨1, 1, 1, .enrolled, some 10⟩ ∧
    calculate_final_grade (create_grades_batch c2_db ⟨99, .admin⟩ c2_items).1 1
      = some 5 ∧
    ¬ (some (10 : ℚ) = some (5 : ℚ)) := by
  have hr10 : pyRound2 10 = 10 := by norm_num [pyRound2, pyRoundInt]
  have hr5 : pyRound2 5 = 5 := by norm_num [pyRound2, pyRoundInt]
  have hbatch : create_grades_batch c2_db ⟨99, .admin⟩ c2_items =
      ({ c2_db with
          enrollments := [⟨1, 1, 1, .enrolled, some (pyRound2 10)⟩]
          grades := [⟨1, 1, 1, some 10, none, none⟩, ⟨2, 1, 2, some 0, none, none⟩]
          next_grade_id := 3 }, [], 2, 0) := by
    norm_num [create_grades_batch, c2_db, c2_items, batch_item,
      batch_item_write, batch_recompute, session_grades, lookup_loaded,
      grades_of, find_grade, find_grade_by_pair, find_enrollment,
      find_evaluation, teacher_for_user, set_final_grade,
      calculate_final_grade_on]
    simp
  rw [hr10] at hbatch
  rw [hbatch]
  refine ⟨rfl, rfl, ?_, ?_, by norm_num⟩
  · norm_num [find_enrollment, c2_db]
  · have h5 : calculate_final_grade
        ({ c2_db with
            enrollments := [⟨1, 1, 1, .enrolled, some 10⟩]
            grades := [⟨1, 1, 1, some 10, none, none⟩,
              ⟨2, 1, 2, some 0, none, none⟩]
            next_grade_id := 3 } : DB) 1 = some (pyRound2 5) := by
      norm_num [calculate_final_grade, calculate_final_grade_on, grades_of,
        find_evaluation, c2_db]
    rw [h5, hr5]

/-! ## Validation-failure predicate of one batch item (claim C5) -/

/-- Whether the score step of one batch item fails: absent score key
(KeyError) or a non-null score out of the evaluation's range. -/
def item_write_fails (ev : Evaluation) (item : GradeInput) : Bool :=
  match item.score with
  | none => true
  | some score =>
    match score with
    | some s => decide (s < 0 ∨ ev.max_score < s)
    | none => false

/-- Whether one batch item fails validation against a store: a missing
required key, an unresolvable enrollment or evaluation, a failing teacher
permission check (broken class-group link included), or a score out of
range.  Mirrors exactly the error paths of `batch_item`. -/
def item_fails (db : DB) (teacherOpt : Option TeacherRow)
    (item : GradeInput) : Bool :=
  match item.enrollment_id with
  | none => true
  | some eid =>
    match item.evaluation_id with
    | none => true
    | some vid =>
      if (find_enrollment db eid).isSome then
        match find_evaluation db vid with
        | none => true
        | some ev =>
          match teacherOpt with
          | some t =>
            match find_class_group db ev.class_group_id with
            | none => true
            | some cg =>
              if ¬ cg.teacher_id = t.id then true
              else item_write_fails ev item
          | none => item_write_fails ev item
      else true

/-- Storing a recomputed final grade keeps the id sequence of the
enrollment rows. -/
theorem set_final_grade_ids (db : DB) (eid : Nat) (v : Option ℚ) :
    (set_final_grade db eid v).enrollments.map (fun e => e.id) =
      db.enrollments.map (fun e => e.id) := by
  unfold set_final_grade
  simp only [List.map_map]
  apply List.map_congr_left
  intro e _
  by_cases h : e.id = eid <;> simp [h]

theorem batch_recompute_evaluations (st : BatchState) (eid : Nat) :
    (batch_recompute st eid).db.evaluations = st.db.evaluations := rfl

theorem batch_recompute_class_groups (st : BatchState) (eid : Nat) :
    (batch_recompute st eid).db.class_groups = st.db.class_groups := rfl

theorem batch_recompute_errors (st : BatchState) (eid : Nat) :
    (batch_recompute st eid).errors = st.errors := rfl

theorem batch_recompute_ids (st : BatchState) (eid : Nat) :
    (batch_recompute st eid).db.enrollments.map (fun e => e.id) =
      st.db.enrollments.map (fun e => e.id) := by
  unfold batch_recompute
  exact set_final_grade_ids st.db eid _

/-- Two enrollment lists with the same id sequence resolve every id lookup
the same way. -/
theorem find?_isSome_of_ids_eq (l1 : List Enrollment) :
    ∀ (l2 : List Enrollment),
      l1.map (fun e => e.id) = l2.map (fun e => e.id) →
      ∀ i : Nat, (l1.find? (fun e => e.id = i)).isSome =
        (l2.find? (fun e => e.id = i)).isSome := by
  induction l1 with
  | nil =>
    intro l2 h i
    cases l2 with
    | nil => simp
    | cons b bs => simp at h
  | cons a as ih =>
    intro l2 h i
    cases l2 with
    | nil => simp at h
    | cons b bs =>
      simp only [List.map_cons, List.cons.injEq] at h
      obtain ⟨hab, hrest⟩ := h
      by_cases hi : a.id = i
      · rw [List.find?_cons_of_pos _ (by simp [hi]),
          List.find?_cons_of_pos _ (by simp [← hab, hi])]
        rfl
      · rw [List.find?_cons_of_neg _ (by simp [hi]),
          List.find?_cons_of_neg _ (by simp [← hab, hi])]
        exact ih bs hrest i

/-- One step of the batch loop: the evaluations and class groups are
untouched, enrollment ids keep resolving the same way, the error list only
grows, and it grows strictly when the item fails validation against the
step's pre-state. -/
theorem batch_item_props (topt : Option TeacherRow) (st : BatchState)
    (idx : Nat) (item : GradeInput) :
    (batch_item topt st idx item).db.evaluations = st.db.evaluations ∧
    (batch_item topt st idx item).db.class_groups = st.db.class_groups ∧
    (batch_item topt st idx item).db.enrollments.map (fun e => e.id) =
      st.db.enrollments.map (fun e => e.id) ∧
    st.errors.length ≤ (batch_item topt st idx item).errors.length ∧
    (item_fails st.db topt item = true →
      st.errors.length < (batch_item topt st idx item).errors.length) := by
  cases h1 : item.enrollment_id with
  | none =>
    refine ⟨?_, ?_, ?_, ?_, ?_⟩ <;>
      simp [batch_item, batch_item_write, item_fails, item_write_fails,
        batch_recompute_evaluations, batch_recompute_class_groups,
        batch_recompute_errors, batch_recompute_ids, *]
  | some eid =>
  cases h2 : item.evaluation_id with
  | none =>
    refine ⟨?_, ?_, ?_, ?_, ?_⟩ <;>
      simp [batch_item, batch_item_write, item_fails, item_write_fails,
        batch_recompute_evaluations, batch_recompute_class_groups,
        batch_recompute_errors, batch_recompute_ids, *]
  | some vid =>
  cases h3 : find_enrollment st.db eid with
  | none =>
    refine ⟨?_, ?_, ?_, ?_, ?_⟩ <;>
      simp [batch_item, batch_item_write, item_fails, item_write_fails,
        batch_recompute_evaluations, batch_recompute_class_groups,
        batch_recompute_errors, batch_recompute_ids, *]
  | some enr =>
  cases h4 : find_evaluation st.db vid with
  | none =>
    refine ⟨?_, ?_, ?_, ?_, ?_⟩ <;>
      simp [batch_item, batch_item_write, item_fails, item_write_fails,
        batch_recompute_evaluations, batch_recompute_class_groups,
        batch_recompute_errors, batch_recompute_ids, *]
  | some ev =>
  cases topt with
  | some t =>
    cases h5 : find_class_group st.db ev.class_group_id with
    | none =>
      refine ⟨?_, ?_, ?_, ?_, ?_⟩ <;>
        simp [batch_item, batch_item_write, item_fails, item_write_fails,
          batch_recompute_evaluations, batch_recompute_class_groups,
          batch_recompute_errors, batch_recompute_ids, *]
    | some cg =>
      by_cases h6 : cg.teacher_id = t.id
      · cases h7 : item.score with
        | none =>
          refine ⟨?_, ?_, ?_, ?_, ?_⟩ <;>
            simp [batch_item, batch_item_write, item_fails, item_write_fails,
              batch_recompute_evaluations, batch_recompute_class_groups,
              batch_recompute_errors, batch_recompute_ids, *]
        | some score =>
          cases score with
          | none =>
            cases h8 : find_grade_by_pair st.db eid vid with
            | some eg =>
              refine ⟨?_, ?_, ?_, ?_, ?_⟩ <;>
                simp [batch_item, batch_item_write, item_fails,
                  item_write_fails, batch_recompute_evaluations,
                  batch_recompute_class_groups, batch_recompute_errors,
                  batch_recompute_ids, *]
            | none =>
              refine ⟨?_, ?_, ?_, ?_, ?_⟩ <;>
                simp [batch_item, batch_item_write, item_fails,
                  item_write_fails, batch_recompute_evaluations,
                  batch_recompute_class_groups, batch_recompute_errors,
                  batch_recompute_ids, *]
          | some s =>
            by_cases h9 : s < 0 ∨ ev.max_score < s
            · refine ⟨?_, ?_, ?_, ?_, ?_⟩ <;>
                simp [batch_item, batch_item_write, item_fails,
                  item_write_fails, batch_recompute_evaluations,
                  batch_recompute_class_groups, batch_recompute_errors,
                  batch_recompute_ids, *]
            · cases h8 : find_grade_by_pair st.db eid vid with
              | some eg =>
                refine ⟨?_, ?_, ?_, ?_, ?_⟩ <;>
                  simp [batch_item, batch_item_write, item_fails,
                    item_write_fails, batch_recompute_evaluations,
                    batch_recompute_class_groups, batch_recompute_errors,
                    batch_recompute_ids, *]
              | none =>
                refine ⟨?_, ?_, ?_, ?_, ?_⟩ <;>
                  simp [batch_item, batch_item_write, item_fails,
                    item_write_fails, batch_recompute_evaluations,
                    batch_recompute_class_groups, batch_recompute_errors,
                    batch_recompute_ids, *]
      · refine ⟨?_, ?_, ?_, ?_, ?_⟩ <;>
          simp [batch_item, batch_item_write, item_fails, item_write_fails,
            batch_recompute_evaluations, batch_recompute_class_groups,
            batch_recompute_errors, batch_recompute_ids, *]
  | none =>
    cases h7 : item.score with
    | none =>
      refine ⟨?_, ?_, ?_, ?_, ?_⟩ <;>
        simp [batch_item, batch_item_write, item_fails, item_write_fails,
          batch_recompute_evaluations, batch_recompute_class_groups,
          batch_recompute_errors, batch_recompute_ids, *]
    | some score =>
      cases score with
      | none =>
        cases h8 : find_grade_by_pair st.db eid vid with
        | some eg =>
          refine ⟨?_, ?_, ?_, ?_, ?_⟩ <;>
            simp [batch_item, batch_item_write, item_fails, item_write_fails,
              batch_recompute_evaluations, batch_recompute_class_groups,
              batch_recompute_errors, batch_recompute_ids, *]
        | none =>
          refine ⟨?_, ?_, ?_, ?_, ?_⟩ <;>
            simp [batch_item, batch_item_write, item_fails, item_write_fails,
              batch_recompute_evaluations, batch_recompute_class_groups,
              batch_recompute_errors, batch_recompute_ids, *]
      | some s =>
        by_cases h9 : s < 0 ∨ ev.max_score < s
        · refine ⟨?_, ?_, ?_, ?_, ?_⟩ <;>
            simp [batch_item, batch_item_write, item_fails, item_write_fails,
              batch_recompute_evaluations, batch_recompute_class_groups,
              batch_recompute_errors, batch_recompute_ids, *]
        · cases h8 : find_grade_by_pair st.db eid vid with
          | some eg =>
            refine ⟨?_, ?_, ?_, ?_, ?_⟩ <;>
              simp [batch_item, batch_item_write, item_fails,
                item_write_fails, batch_recompute_evaluations,
                batch_recompute_class_groups, batch_recompute_errors,
                batch_recompute_ids, *]
          | none =>
            refine ⟨?_, ?_, ?_, ?_, ?_⟩ <;>
              simp [batch_item, batch_item_write, item_fails,
                item_write_fails, batch_recompute_evaluations,
                batch_recompute_class_groups, batch_recompute_errors,
                batch_recompute_ids, *]

/-- Whether an item fails validation depends only on store components the
batch loop never changes, so it is stable across batch steps. -/
theorem item_fails_stable (topt : Option TeacherRow) (st : BatchState)
    (idx : Nat) (item it2 : GradeInput) :
    item_fails (batch_item topt st idx item).db topt it2 =
      item_fails st.db topt it2 := by
  obtain ⟨hev, hcg, hids, -, -⟩ := batch_item_props topt st idx item
  have hfe : ∀ j, find_evaluation (batch_item topt st idx item).db j =
      find_evaluation st.db j := by
    intro j; unfold find_evaluation; rw [hev]
  have hfc : ∀ j, find_class_group (batch_item topt st idx item).db j =
      find_class_group st.db j := by
    intro j; unfold find_class_group; rw [hcg]
  have hen : ∀ j, (find_enrollment (batch_item topt st idx item).db j).isSome
      = (find_enrollment st.db j).isSome := by
    intro j
    unfold find_enrollment
    exact find?_isSome_of_ids_eq _ _ hids j
  unfold item_fails
  cases it2.enrollment_id with
  | none => rfl
  | some eid =>
    cases it2.evaluation_id with
    | none => rfl
    | some vid =>
      simp only [hfe, hfc, hen]

/-- Error lengths never shrink along the batch fold. -/
theorem batch_fold_mono (topt : Option TeacherRow) (items : List GradeInput) :
    ∀ (st : BatchState) (idx : Nat),
      st.errors.length ≤
        ((items.foldl (fun (p : BatchState × Nat) item =>
          (batch_item topt p.1 p.2 item, p.2 + 1)) (st, idx)).1.errors.length)
    := by
  induction items with
  | nil => intro st idx; simp
  | cons x xs ih =>
    intro st idx
    simp only [List.foldl_cons]
    have h1 := (batch_item_props topt st idx x).2.2.2.1
    have h2 := ih (batch_item topt st idx x) (idx + 1)
    omega

/-- If some item of the batch fails validation against the running store,
the fold ends with a nonempty error list. -/
theorem batch_fold_fails (topt : Option TeacherRow) (items : List GradeInput) :
    ∀ (st : BatchState) (idx : Nat),
      (∃ item ∈ items, item_fails st.db topt item = true) →
      0 < ((items.foldl (fun (p : BatchState × Nat) item =>
        (batch_item topt p.1 p.2 item, p.2 + 1)) (st, idx)).1.errors.length)
    := by
  induction items with
  | nil =>
    rintro st idx ⟨item, hmem, -⟩
    cases hmem
  | cons x xs ih =>
    rintro st idx ⟨item, hmem, hfail⟩
    simp only [List.foldl_cons]
    rcases List.mem_cons.mp hmem with rfl | hmem2
    · have h1 := (batch_item_props topt st idx item).2.2.2.2 hfail
      have h2 := batch_fold_mono topt xs (batch_item topt st idx item)
        (idx + 1)
      omega
    · refine ih (batch_item topt st idx x) (idx + 1) ⟨item, hmem2, ?_⟩
      rw [item_fails_stable]
      exact hfail

/-- C5: a batch submission containing an item that fails validation (missing
key, unresolvable enrollment or evaluation, permission failure, or score out
of range) is rolled back whole: the returned store is the pre-state, the
created/updated counters are 0, and the error list is nonempty (the failing
item contributed at least one entry). -/
theorem C5_batch_all_or_nothing (db : DB) (user : User)
    (items : List GradeInput) (item : GradeInput) (hmem : item ∈ items)
    (hfail : item_fails db
      (if user.role = .teacher then teacher_for_user db user.id else none)
      item = true) :
    (create_grades_batch db user items).1 = db ∧
    (create_grades_batch db user items).2.1 ≠ [] ∧
    (create_grades_batch db user items).2.2.1 = 0 ∧
    (create_grades_batch db user items).2.2.2 = 0 := by
  have hne : items.isEmpty = false := by
    cases items with
    | nil => cases hmem
    | cons x xs => rfl
  have hpos := batch_fold_fails
    (if user.role = .teacher then teacher_for_user db user.id else none)
    items ⟨db, [], 0, 0, []⟩ 1 ⟨item, hmem, hfail⟩
  unfold create_grades_batch
  rw [hne]
  simp only [Bool.false_eq_true, if_false]
  have hnem : ((items.foldl (fun (p : BatchState × Nat) item =>
      (batch_item (if user.role = .teacher then teacher_for_user db user.id
        else none) p.1 p.2 item, p.2 + 1))
      (⟨db, [], 0, 0, []⟩, 1)).1.errors.isEmpty) = false := by
    cases hfold : ((items.foldl (fun (p : BatchState × Nat) item =>
        (batch_item (if user.role = .teacher then teacher_for_user db user.id
          else none) p.1 p.2 item, p.2 + 1))
        (⟨db, [], 0, 0, []⟩, 1)).1.errors) with
    | nil => rw [hfold] at hpos; simp at hpos
    | cons a l => rfl
  rw [hnem]
  simp only [Bool.false_eq_true, if_false]
  refine ⟨trivial, ?_, trivial, trivial⟩
  intro hcontra
  rw [hcontra] at hpos
  simp at hpos

/-- Pre-state of the C5 witness: six enrolled students in one class with one
evaluation of max_score 10, no grades yet. -/
def c5_db : DB :=
  { subjects := [⟨1, 4⟩]
    class_groups := [⟨1, 1, 1, 50⟩]
    teachers := [⟨1, 1⟩]
    students := [⟨1, 10⟩, ⟨2, 11⟩, ⟨3, 12⟩, ⟨4, 13⟩, ⟨5, 14⟩, ⟨6, 15⟩]
    enrollments := [⟨1, 1, 1, .enrolled, none⟩, ⟨2, 2, 1, .enrolled, none⟩,
      ⟨3, 3, 1, .enrolled, none⟩, ⟨4, 4, 1, .enrolled, none⟩,
      ⟨5, 5, 1, .enrolled, none⟩, ⟨6, 6, 1, .enrolled, none⟩]
    evaluations := [⟨1, 1, 1, 10⟩]
    grades := []
    next_grade_id := 1
    next_enrollment_id := 7 }

/-- Six batch items: five valid scores and one score of 15 against
max_score 10 (the fifth item). -/
def c5_items : List GradeInput :=
  [⟨some 1, some 1, some (some 5), none⟩,
   ⟨some 2, some 1, some (some 6), none⟩,
   ⟨some 3, some 1, some (some 7), none⟩,
   ⟨some 4, some 1, some (some 8), none⟩,
   ⟨some 5, some 1, some (some 15), none⟩,
   ⟨some 6, some 1, some (some 9), none⟩]

/-- Witness for C5: one invalid score among five valid items commits zero
rows — the returned store is the pre-state and both counters are 0 — and the
response carries exactly one error entry, for the invalid item. -/
theorem C5_batch_all_or_nothing_witness :
    (create_grades_batch c5_db ⟨99, .admin⟩ c5_items).1 = c5_db ∧
    (create_grades_batch c5_db ⟨99, .admin⟩ c5_items).2.1 ≠ [] ∧
    (create_grades_batch c5_db ⟨99, .admin⟩ c5_items).2.2.1 = 0 ∧
    (create_grades_batch c5_db ⟨99, .admin⟩ c5_items).2.2.2 = 0 ∧
    (create_grades_batch c5_db ⟨99, .admin⟩ c5_items).2.1 =
      [(5, .score_out_of_range)] := by
  have happ := C5_batch_all_or_nothing c5_db ⟨99, .admin⟩ c5_items
    ⟨some 5, some 1, some (some 15), none⟩ (by simp [c5_items])
    (by
      rw [show (if (⟨99, Role.admin⟩ : User).role = Role.teacher
          then teacher_for_user c5_db (⟨99, Role.admin⟩ : User).id
          else none) = (none : Option TeacherRow) from rfl]
      norm_num [item_fails, item_write_fails, find_enrollment,
        find_evaluation, c5_db])
  refine ⟨happ.1, happ.2.1, happ.2.2.1, happ.2.2.2, ?_⟩
  norm_num [create_grades_batch, batch_item, batch_item_write,
    batch_recompute, session_grades, lookup_loaded, grades_of, find_grade,
    find_grade_by_pair, find_enrollment, find_evaluation, teacher_for_user,
    set_final_grade, calculate_final_grade_on, c5_db, c5_items]
  simp

/-! ## Uniqueness of (enrollment_id, evaluation_id) over Grade rows (claim C7) -/

/-- The (enrollment_id, evaluation_id) key of every Grade row. -/
def grade_pairs (gs : List Grade) : List (Nat × Nat) :=
  gs.map (fun g => (g.enrollment_id, g.evaluation_id))

/-- Store well-formedness: distinct primary keys below the autoincrement
counter (what a SQL primary key guarantees) and distinct
(enrollment_id, evaluation_id) keys (the table's unique constraint,
grade.py:21). -/
def grades_wf (db : DB) : Prop :=
  (db.grades.map (fun g => g.id)).Nodup ∧
  (∀ g ∈ db.grades, g.id < db.next_grade_id) ∧
  (grade_pairs db.grades).Nodup

/-- Replacing one row in place by primary key, keeping its pair key,
preserves the pair sequence. -/
theorem grade_pairs_map_update (gs : List Grade) (g0 g1 : Grade)
    (hids : (gs.map (fun g => g.id)).Nodup) (hmem : g0 ∈ gs)
    (hpe : g1.enrollment_id = g0.enrollment_id)
    (hpv : g1.evaluation_id = g0.evaluation_id) :
    grade_pairs (gs.map (fun x => if x.id = g0.id then g1 else x)) =
      grade_pairs gs := by
  unfold grade_pairs
  rw [List.map_map]
  apply List.map_congr_left
  intro x hx
  by_cases h : x.id = g0.id
  · have hx0 : x = g0 := List.inj_on_of_nodup_map hids hx hmem h
    simp [h, hx0, hpe, hpv]
  · simp [h]

/-- An absent pair key is not among the stored pair keys. -/
theorem pair_not_mem_of_find_none (db : DB) (eid vid : Nat)
    (h : find_grade_by_pair db eid vid = none) :
    (eid, vid) ∉ grade_pairs db.grades := by
  unfold find_grade_by_pair at h
  rw [List.find?_eq_none] at h
  unfold grade_pairs
  intro hmem
  obtain ⟨g, hg, hpair⟩ := List.mem_map.mp hmem
  have h2 := h g hg
  simp only [Prod.mk.injEq] at hpair
  simp [hpair.1, hpair.2] at h2

/-- Well-formedness is preserved by an in-place update of a stored row that
keeps its primary key and its pair key. -/
theorem grades_wf_update (db db2 : DB) (eg g1 : Grade)
    (h : grades_wf db) (hmem : eg ∈ db.grades) (hid : g1.id = eg.id)
    (hpe : g1.enrollment_id = eg.enrollment_id)
    (hpv : g1.evaluation_id = eg.evaluation_id)
    (hg : db2.grades = db.grades.map (fun x => if x.id = eg.id then g1 else x))
    (hn : db2.next_grade_id = db.next_grade_id) :
    grades_wf db2 := by
  obtain ⟨h1, h2, h3⟩ := h
  refine ⟨?_, ?_, ?_⟩
  · rw [hg, List.map_map]
    have : ((fun g => g.id) ∘ fun x => if x.id = eg.id then g1 else x) =
        fun x : Grade => x.id := by
      funext x
      by_cases hx : x.id = eg.id <;> simp [hx, hid]
    rw [this]
    exact h1
  · intro g hgmem
    rw [hg] at hgmem
    obtain ⟨x, hxmem, hxg⟩ := List.mem_map.mp hgmem
    rw [hn, ← hxg]
    by_cases hx : x.id = eg.id
    · simp only [hx, if_pos]
      rw [hid, ← hx]
      exact h2 x hxmem
    · simp only [hx, if_neg, ite_false]
      exact h2 x hxmem
  · rw [hg, grade_pairs_map_update db.grades eg g1 h1 hmem hpe hpv]
    exact h3

/-- Well-formedness is preserved by appending a fresh row whose pair key is
not yet stored. -/
theorem grades_wf_append (db db2 : DB) (g1 : Grade)
    (h : grades_wf db) (hid : g1.id = db.next_grade_id)
    (hnotin : (g1.enrollment_id, g1.evaluation_id) ∉ grade_pairs db.grades)
    (hg : db2.grades = db.grades ++ [g1])
    (hn : db2.next_grade_id = db.next_grade_id + 1) :
    grades_wf db2 := by
  obtain ⟨h1, h2, h3⟩ := h
  refine ⟨?_, ?_, ?_⟩
  · rw [hg, List.map_append]
    rw [List.nodup_append]
    refine ⟨h1, by simp, ?_⟩
    intro a ha hb
    simp only [List.map_cons, List.map_nil, List.mem_singleton] at hb
    obtain ⟨x, hxmem, hxa⟩ := List.mem_map.mp ha
    have := h2 x hxmem
    omega
  · intro g hgmem
    rw [hg] at hgmem
    rw [hn]
    rcases List.mem_append.mp hgmem with hl | hr
    · have := h2 g hl
      omega
    · simp only [List.mem_singleton] at hr
      rw [hr, hid]
      omega
  · rw [hg]
    unfold grade_pairs
    rw [List.map_append, List.nodup_append]
    refine ⟨h3, by simp, ?_⟩
    intro a ha hb
    simp only [List.map_cons, List.map_nil, List.mem_singleton] at hb
    rw [hb] at ha
    exact hnotin ha

/-- Well-formedness only reads the grade rows and the counter. -/
theorem grades_wf_of_eq (db db2 : DB) (h : grades_wf db)
    (hg : db2.grades = db.grades) (hn : db2.next_grade_id = db.next_grade_id) :
    grades_wf db2 := by
  obtain ⟨h1, h2, h3⟩ := h
  exact ⟨by rw [hg]; exact h1, by rw [hg, hn]; exact h2, by rw [hg]; exact h3⟩

/-- Deleting rows preserves well-formedness. -/
theorem grades_wf_filter (db db2 : DB) (p : Grade → Bool)
    (h : grades_wf db) (hg : db2.grades = db.grades.filter p)
    (hn : db2.next_grade_id = db.next_grade_id) :
    grades_wf db2 := by
  obtain ⟨h1, h2, h3⟩ := h
  refine ⟨?_, ?_, ?_⟩
  · rw [hg]
    exact h1.sublist ((List.filter_sublist db.grades).map _)
  · intro g hgmem
    rw [hg] at hgmem
    rw [hn]
    exact h2 g (List.mem_of_mem_filter hgmem)
  · rw [hg]
    exact h3.sublist ((List.filter_sublist db.grades).map _)

theorem recompute_final_grade_grades (db : DB) (eid : Nat) :
    (recompute_final_grade db eid).grades = db.grades := rfl

theorem recompute_final_grade_next (db : DB) (eid : Nat) :
    (recompute_final_grade db eid).next_grade_id = db.next_grade_id := rfl

/-- `create_grade` preserves store well-formedness, and when the pair
already had a row it updates that row in place: same row count, same primary
key, same pair key. -/
theorem create_grade_wf (db : DB) (user : User) (inp : GradeInput)
    (hwf : grades_wf db) (db1 : DB) (g1 : Grade)
    (hok : create_grade db user inp = .ok (db1, g1)) :
    grades_wf db1 ∧
    (∀ eid vid eg, inp.enrollment_id = some eid →
      inp.evaluation_id = some vid →
      find_grade_by_pair db eid vid = some eg →
      db1.grades.length = db.grades.length ∧ g1.id = eg.id ∧
      g1.enrollment_id = eg.enrollment_id ∧
      g1.evaluation_id = eg.evaluation_id) := by
  cases h1 : inp.enrollment_id with
  | none => simp [create_grade, h1] at hok
  | some eid =>
  cases h2 : inp.evaluation_id with
  | none => simp [create_grade, h1, h2] at hok
  | some vid =>
  cases h3 : inp.score with
  | none => simp [create_grade, h1, h2, h3] at hok
  | some score =>
  cases h4 : find_enrollment db eid with
  | none => simp [create_grade, h1, h2, h3, h4] at hok
  | some enr =>
  cases h5 : find_evaluation db vid with
  | none => simp [create_grade, h1, h2, h3, h4, h5] at hok
  | some ev =>
  cases h6 : evaluation_permission db user ev with
  | error e => simp [create_grade, h1, h2, h3, h4, h5, h6] at hok
  | ok u =>
  cases hb : (match score with
      | some s => decide (s < 0 ∨ ev.max_score < s)
      | none => false) with
  | true =>
    cases score with
    | none => simp at hb
    | some s =>
      simp at hb
      cases hb with
      | inl hlt => simp [create_grade, h1, h2, h3, h4, h5, h6, hlt] at hok
      | inr hgt => simp [create_grade, h1, h2, h3, h4, h5, h6, hgt] at hok
  | false =>
  cases h8 : find_grade_by_pair db eid vid with
  | some eg =>
    simp only [create_grade, h1, h2, h3, h4, h5, h6, hb,
      Bool.false_eq_true, if_false, h8, Except.ok.injEq,
      Prod.mk.injEq] at hok
    obtain ⟨hdb1, hg1⟩ := hok
    have hmem : eg ∈ db.grades := by
      have h8x := h8
      unfold find_grade_by_pair at h8x
      exact List.mem_of_find?_eq_some h8x
    constructor
    · refine grades_wf_update db db1 eg g1 hwf hmem ?_ ?_ ?_ ?_ ?_
      · rw [← hg1]
      · rw [← hg1]
      · rw [← hg1]
      · rw [← hdb1, recompute_final_grade_grades, ← hg1]
      · rw [← hdb1, recompute_final_grade_next]
    · intro eid2 vid2 eg2 he2 hv2 hf2
      injection he2 with he2x
      injection hv2 with hv2x
      subst he2x
      subst hv2x
      rw [h8] at hf2
      injection hf2 with hf2x
      subst hf2x
      refine ⟨?_, ?_, ?_, ?_⟩
      · rw [← hdb1, recompute_final_grade_grades, List.length_map]
      · rw [← hg1]
      · rw [← hg1]
      · rw [← hg1]
  | none =>
    simp only [create_grade, h1, h2, h3, h4, h5, h6, hb,
      Bool.false_eq_true, if_false, h8, Except.ok.injEq,
      Prod.mk.injEq] at hok
    obtain ⟨hdb1, hg1⟩ := hok
    constructor
    · refine grades_wf_append db db1 g1 hwf ?_ ?_ ?_ ?_
      · rw [← hg1]
      · rw [← hg1]
        exact pair_not_mem_of_find_none db eid vid h8
      · rw [← hdb1, recompute_final_grade_grades, ← hg1]
      · rw [← hdb1, recompute_final_grade_next]
    · intro eid2 vid2 eg2 he2 hv2 hf2
      injection he2 with he2x
      injection hv2 with hv2x
      subst he2x
      subst hv2x
      rw [h8] at hf2
      exact absurd hf2 (by simp)

/-- `update_grade` preserves store well-formedness and the row count. -/
theorem update_grade_wf (db : DB) (user : User) (gid : Nat)
    (inp : GradeUpdateInput) (hwf : grades_wf db) (db1 : DB) (g1 : Grade)
    (hok : update_grade db user gid inp = .ok (db1, g1)) :
    grades_wf db1 ∧ db1.grades.length = db.grades.length := by
  cases h1 : find_grade db gid with
  | none => simp [update_grade, h1] at hok
  | some g =>
  have hgid : g.id = gid := by
    have h1x := h1
    unfold find_grade at h1x
    have := List.find?_some h1x
    simpa using this
  have hmem : g ∈ db.grades := by
    have h1x := h1
    unfold find_grade at h1x
    exact List.mem_of_find?_eq_some h1x
  subst hgid
  cases h2 : grade_row_permission db user g with
  | error e => simp [update_grade, h1, h2] at hok
  | ok u =>
  have hfin : ∀ (ns : Option ℚ)
      (hres : update_grade db user g.id inp = .ok (db1, g1))
      (hshape : update_grade db user g.id inp = .ok
        (recompute_final_grade
          { db with grades := db.grades.map (fun x =>
              if x.id = g.id then
                { g with
                  score := ns
                  comments := match inp.comments with
                    | none => g.comments
                    | some c => c
                  graded_by :=
                    if user.role = .teacher
                    then (teacher_for_user db user.id).map (fun t => t.id)
                    else g.graded_by }
              else x) } g.enrollment_id,
          { g with
            score := ns
            comments := match inp.comments with
              | none => g.comments
              | some c => c
            graded_by :=
              if user.role = .teacher
              then (teacher_for_user db user.id).map (fun t => t.id)
              else g.graded_by })),
      grades_wf db1 ∧ db1.grades.length = db.grades.length := by
    intro ns hres hshape
    rw [hres] at hshape
    simp only [Except.ok.injEq, Prod.mk.injEq] at hshape
    obtain ⟨hdb1, hg1⟩ := hshape
    constructor
    · refine grades_wf_update db db1 g g1 hwf hmem ?_ ?_ ?_ ?_ ?_
      · rw [hg1]
      · rw [hg1]
      · rw [hg1]
      · rw [hdb1, recompute_final_grade_grades, hg1]
      · rw [hdb1, recompute_final_grade_next]
    · rw [hdb1, recompute_final_grade_grades, List.length_map]
  cases h3 : inp.score with
  | none =>
    exact hfin g.score hok
      (by simp [update_grade, h1, h2, h3])
  | some newScore =>
    cases newScore with
    | none =>
      exact hfin none hok
        (by simp [update_grade, h1, h2, h3])
    | some s =>
      cases h4 : find_evaluation db g.evaluation_id with
      | none => simp [update_grade, h1, h2, h3, h4] at hok
      | some ev =>
        by_cases h5 : s < 0 ∨ ev.max_score < s
        · simp [update_grade, h1, h2, h3, h4, h5] at hok
        · exact hfin (some s) hok
            (by simp [update_grade, h1, h2, h3, h4, h5])

/-- `delete_grade` preserves store well-formedness. -/
theorem delete_grade_wf (db : DB) (user : User) (gid : Nat)
    (hwf : grades_wf db) (db1 : DB)
    (hok : delete_grade db user gid = .ok db1) :
    grades_wf db1 := by
  cases h1 : find_grade db gid with
  | none => simp [delete_grade, h1] at hok
  | some g =>
  cases h2 : grade_row_permission db user g with
  | error e => simp [delete_grade, h1, h2] at hok
  | ok u =>
    simp only [delete_grade, h1, h2, Except.ok.injEq] at hok
    refine grades_wf_filter db db1 (fun x => ¬ x.id = gid) hwf ?_ ?_
    · rw [← hok, recompute_final_grade_grades]
    · rw [← hok, recompute_final_grade_next]

/-- The in-place update branch of the batch writer preserves
well-formedness. -/
theorem batch_write_wf_update (db db2 : DB) (eg g1 : Grade) (eid vid : Nat)
    (hwf : grades_wf db)
    (h8 : find_grade_by_pair db eid vid = some eg)
    (hg : db2.grades = db.grades.map (fun x => if x.id = eg.id then g1 else x))
    (hn : db2.next_grade_id = db.next_grade_id)
    (hid : g1.id = eg.id) (hpe : g1.enrollment_id = eg.enrollment_id)
    (hpv : g1.evaluation_id = eg.evaluation_id) :
    grades_wf db2 := by
  have hx := h8
  unfold find_grade_by_pair at hx
  exact grades_wf_update db db2 eg g1 hwf (List.mem_of_find?_eq_some hx)
    hid hpe hpv hg hn

/-- The insert branch of the batch writer preserves well-formedness. -/
theorem batch_write_wf_create (db db2 : DB) (g1 : Grade) (eid vid : Nat)
    (hwf : grades_wf db)
    (h8 : find_grade_by_pair db eid vid = none)
    (hg : db2.grades = db.grades ++ [g1])
    (hn : db2.next_grade_id = db.next_grade_id + 1)
    (hid : g1.id = db.next_grade_id)
    (hpe : g1.enrollment_id = eid) (hpv : g1.evaluation_id = vid) :
    grades_wf db2 := by
  refine grades_wf_append db db2 g1 hwf hid ?_ hg hn
  rw [hpe, hpv]
  exact pair_not_mem_of_find_none db eid vid h8

/-- One step of the batch loop preserves well-formedness of the grade
store. -/
theorem batch_item_wf (topt : Option TeacherRow) (st : BatchState)
    (idx : Nat) (item : GradeInput) (hwf : grades_wf st.db) :
    grades_wf (batch_item topt st idx item).db := by
  cases h1 : item.enrollment_id with
  | none => simpa [batch_item, h1] using hwf
  | some eid =>
  cases h2 : item.evaluation_id with
  | none => simpa [batch_item, h1, h2] using hwf
  | some vid =>
  cases h3 : find_enrollment st.db eid with
  | none => simpa [batch_item, h1, h2, h3] using hwf
  | some enr =>
  cases h4 : find_evaluation st.db vid with
  | none => simpa [batch_item, h1, h2, h3, h4] using hwf
  | some ev =>
  cases topt with
  | some t =>
    cases h5 : find_class_group st.db ev.class_group_id with
    | none => simpa [batch_item, h1, h2, h3, h4, h5] using hwf
    | some cg =>
      by_cases h6 : cg.teacher_id = t.id
      · cases h7 : item.score with
        | none =>
          simpa [batch_item, batch_item_write, h1, h2, h3, h4, h5, h6, h7]
            using hwf
        | some score =>
          cases score with
          | none =>
            cases h8 : find_grade_by_pair st.db eid vid with
            | some eg =>
              simp [batch_item, batch_item_write, h1, h2, h3, h4, h5, h6,
                h7, h8]
              exact batch_write_wf_update st.db _ eg _ eid vid hwf h8
                rfl rfl rfl rfl rfl
            | none =>
              simp [batch_item, batch_item_write, h1, h2, h3, h4, h5, h6,
                h7, h8]
              exact batch_write_wf_create st.db _ _ eid vid hwf h8
                rfl rfl rfl rfl rfl
          | some s =>
            by_cases h9 : s < 0 ∨ ev.max_score < s
            · simpa [batch_item, batch_item_write, h1, h2, h3, h4, h5, h6,
                h7, h9] using hwf
            · cases h8 : find_grade_by_pair st.db eid vid with
              | some eg =>
                simp [batch_item, batch_item_write, h1, h2, h3, h4, h5,
                  h6, h7, h8, h9]
                exact batch_write_wf_update st.db _ eg _ eid vid hwf h8
                  rfl rfl rfl rfl rfl
              | none =>
                simp [batch_item, batch_item_write, h1, h2, h3, h4, h5,
                  h6, h7, h8, h9]
                exact batch_write_wf_create st.db _ _ eid vid hwf h8
                  rfl rfl rfl rfl rfl
      · simpa [batch_item, h1, h2, h3, h4, h5, h6] using hwf
  | none =>
    cases h7 : item.score with
    | none =>
      simpa [batch_item, batch_item_write, h1, h2, h3, h4, h7] using hwf
    | some score =>
      cases score with
      | none =>
        cases h8 : find_grade_by_pair st.db eid vid with
        | some eg =>
          simp [batch_item, batch_item_write, h1, h2, h3, h4, h7, h8]
          exact batch_write_wf_update st.db _ eg _ eid vid hwf h8
            rfl rfl rfl rfl rfl
        | none =>
          simp [batch_item, batch_item_write, h1, h2, h3, h4, h7, h8]
          exact batch_write_wf_create st.db _ _ eid vid hwf h8
            rfl rfl rfl rfl rfl
      | some s =>
        by_cases h9 : s < 0 ∨ ev.max_score < s
        · simpa [batch_item, batch_item_write, h1, h2, h3, h4, h7, h9]
            using hwf
        · cases h8 : find_grade_by_pair st.db eid vid with
          | some eg =>
            simp [batch_item, batch_item_write, h1, h2, h3, h4, h7, h8, h9]
            exact batch_write_wf_update st.db _ eg _ eid vid hwf h8
              rfl rfl rfl rfl rfl
          | none =>
            simp [batch_item, batch_item_write, h1, h2, h3, h4, h7, h8, h9]
            exact batch_write_wf_create st.db _ _ eid vid hwf h8
              rfl rfl rfl rfl rfl

/-- The whole batch loop preserves well-formedness. -/
theorem batch_fold_wf (topt : Option TeacherRow) (items : List GradeInput) :
    ∀ (st : BatchState) (idx : Nat), grades_wf st.db →
      grades_wf ((items.foldl (fun (p : BatchState × Nat) item =>
        (batch_item topt p.1 p.2 item, p.2 + 1)) (st, idx)).1.db) := by
  induction items with
  | nil =>
    intro st idx h
    simpa using h
  | cons a as ih =>
    intro st idx h
    simp only [List.foldl_cons]
    exact ih (batch_item topt st idx a) (idx + 1) (batch_item_wf topt st idx a h)

/-- `create_grades_batch` preserves well-formedness of the grade store. -/
theorem create_grades_batch_wf (db : DB) (user : User)
    (items : List GradeInput) (hwf : grades_wf db) :
    grades_wf (create_grades_batch db user items).1 := by
  by_cases hemp : items.isEmpty
  · simpa [create_grades_batch, hemp] using hwf
  · have hfold : ∀ topt : Option TeacherRow,
        grades_wf ((items.foldl (fun (p : BatchState × Nat) item =>
          (batch_item topt p.1 p.2 item, p.2 + 1))
          (⟨db, [], 0, 0, []⟩, 1)).1.db) :=
      fun topt => batch_fold_wf topt items ⟨db, [], 0, 0, []⟩ 1 hwf
    simp only [create_grades_batch, hemp, Bool.false_eq_true, if_false]
    repeat' split
    all_goals first
      | exact hfold _
      | exact hwf

/-- C7: starting from a store whose grade rows have unique ids, fresh ids
below the id counter, and pairwise distinct (enrollment_id, evaluation_id)
pairs, every operation preserves the uniqueness of the pairs: a create_grade
call naming a pair that already has a row updates that row in place (same row
count, same primary key, same pair) and never creates a duplicate, and the
batch upsert, update_grade and delete_grade paths likewise leave the pair
list duplicate-free. -/
theorem C7_grade_pair_uniqueness (db : DB) (hwf : grades_wf db) :
    (∀ user inp db1 g1, create_grade db user inp = .ok (db1, g1) →
      (grade_pairs db1.grades).Nodup ∧
      (∀ eid vid eg, inp.enrollment_id = some eid →
        inp.evaluation_id = some vid →
        find_grade_by_pair db eid vid = some eg →
        db1.grades.length = db.grades.length ∧ g1.id = eg.id ∧
        g1.enrollment_id = eg.enrollment_id ∧
        g1.evaluation_id = eg.evaluation_id)) ∧
    (∀ user items,
      (grade_pairs (create_grades_batch db user items).1.grades).Nodup) ∧
    (∀ user gid inp db1 g1, update_grade db user gid inp = .ok (db1, g1) →
      (grade_pairs db1.grades).Nodup ∧
      db1.grades.length = db.grades.length) ∧
    (∀ user gid db1, delete_grade db user gid = .ok db1 →
      (grade_pairs db1.grades).Nodup) := by
  refine ⟨?_, ?_, ?_, ?_⟩
  · intro user inp db1 g1 hok
    obtain ⟨hwf1, hin⟩ := create_grade_wf db user inp hwf db1 g1 hok
    exact ⟨hwf1.2.2, hin⟩
  · intro user items
    exact (create_grades_batch_wf db user items hwf).2.2
  · intro user gid inp db1 g1 hok
    obtain ⟨hwf1, hlen⟩ := update_grade_wf db user gid inp hwf db1 g1 hok
    exact ⟨hwf1.2.2, hlen⟩
  · intro user gid db1 hok
    exact (delete_grade_wf db user gid hwf db1 hok).2.2

/-- A well-formed store with one graded row, used to instantiate C7. -/
def c7_db : DB :=
  { subjects := [⟨1, 4⟩]
    class_groups := [⟨1, 1, 1, 50⟩]
    teachers := [⟨1, 1⟩]
    students := [⟨1, 10⟩]
    enrollments := [⟨1, 1, 1, .enrolled, none⟩]
    evaluations := [⟨1, 1, 1, 10⟩]
    grades := [⟨1, 1, 1, some 8, none, none⟩]
    next_grade_id := 2
    next_enrollment_id := 2 }

/-- Witness for C7: the one-row store is well-formed, and a batch upsert
against it keeps the grade pairs duplicate-free. -/
theorem C7_grade_pair_uniqueness_witness :
    grades_wf c7_db ∧
      (grade_pairs (create_grades_batch c7_db ⟨99, Role.admin⟩
        [⟨some 1, some 1, some (some 9), none⟩]).1.grades).Nodup :=
  ⟨⟨by decide, by decide, by decide⟩,
    (C7_grade_pair_uniqueness c7_db ⟨by decide, by decide, by decide⟩).2.1
      ⟨99, Role.admin⟩ [⟨some 1, some 1, some (some 9), none⟩]⟩

end SGA
